import Mathlib

/-!
Verification development for the mcp-hypothesis-tester repository.

The embedding covers the three core components of the system:
the test-execution pipeline (`BaseHypothesisTest.run` in `src/core/base_test.py`),
the result cache with expiry (`CacheManager` in `src/core/cache_manager.py`),
and the test-suggestion engine (`TestSuggester` in `src/utils/test_suggester.py`),
together with the fourteen concrete test-strategy classes.

Modelling conventions:
* Machine floats are modelled as rationals `ℚ` together with an explicit NaN
  flag (`Datum`), since the code only branches on order comparisons and
  `np.isnan`.
* The external Statistical Procedure Library (scipy/numpy routines such as
  `stats.shapiro`, `stats.ttest_1samp`, `np.sqrt`, `np.percentile`) is
  modelled as a record of oracles (`StatLib`): the repository treats these
  as an external collaborator returning `(statistic, p_value)` pairs.
* Wall-clock time is an explicit `Int` parameter; identifier generation
  (`generate_test_id`, a hash of type, current time and object identity) is
  abstracted as an explicit fresh-identifier parameter.
* File-system I/O failure while caching is an explicit boolean parameter;
  the JSON serialise/deserialise round trip on JSON-representable values is
  modelled as the identity.
* Python numeric formatting (`f"{x:.2f}"`) is abstracted as exact rational
  rendering (`fmtQ`); no claim inspects formatted digits.
-/

namespace HypTester

/-- One floating-point datum: a rational value plus a NaN flag. -/
structure Datum where
  val : ℚ
  isNaN : Bool
deriving DecidableEq, Repr, Inhabited

/-- A numeric sample (one numpy array). -/
abbrev Sample := List Datum

/-- Models `np.any(np.isnan(data))`. -/
def hasNaN (xs : Sample) : Bool := xs.any (·.isNaN)

/-- Values of a sample, dropping the NaN flags. -/
def vals (xs : Sample) : List ℚ := xs.map (·.val)

/-- Sum of a list of rationals. -/
def listSum (l : List ℚ) : ℚ := l.foldl (· + ·) 0

/-- Models `np.mean(data)` (division by zero yields 0 in `ℚ`; the pipeline
only evaluates the mean on validated non-empty samples). -/
def mean (xs : Sample) : ℚ := listSum (vals xs) / (xs.length : ℚ)

/-- Models `np.var(data, ddof=1)`, the sample variance. -/
def sampleVar (xs : Sample) : ℚ :=
  listSum ((vals xs).map (fun v => (v - mean xs) ^ 2)) / ((xs.length : ℚ) - 1)

/-- Models elementwise `after - before` on paired numpy arrays (NaN flags
propagate as IEEE subtraction would). -/
def diffs (after before : Sample) : Sample :=
  List.zipWith (fun a b => ⟨a.val - b.val, a.isNaN || b.isNaN⟩) after before

/-- Exact rational rendering, abstracting Python numeric formatting. -/
def fmtQ (q : ℚ) : String := toString q

/-! ### JSON values and the cache store

`CacheManager` persists JSON documents.  The serialise/deserialise round
trip is modelled as the identity on this JSON value type. -/

/-- A JSON value, as produced by `json.dump`/`json.load`. -/
inductive Json where
  | null : Json
  | boolv : Bool → Json
  | num : ℚ → Json
  | str : String → Json
  | arr : List Json → Json
  | obj : List (String × Json) → Json

/-- Python truthiness of a JSON value (used by `if raw_data:` and
`if entry["data_file"]:`). -/
def Json.truthy : Json → Bool
  | .null => false
  | .boolv b => b
  | .num q => !(q == 0)
  | .str s => !(s == "")
  | .arr l => !l.isEmpty
  | .obj l => !l.isEmpty

/-- Models `result["raw_data"] = value` on a JSON object: replace the value
under the key if present, otherwise append the binding. -/
def Json.setKey : Json → String → Json → Json
  | .obj fields, k, v =>
    if fields.any (fun p => p.1 == k) then
      .obj (fields.map (fun p => if p.1 == k then (k, v) else p))
    else
      .obj (fields ++ [(k, v)])
  | j, _, _ => j

/-- Lookup in a Python-dict-like association list (first binding wins;
reachable cache states have distinct keys, as Python dicts do). -/
def lookup {α : Type} : List (String × α) → String → Option α
  | [], _ => none
  | (k', v) :: rest, k => if k' == k then some v else lookup rest k

/-- Models Python dict assignment `d[k] = v`: replace in place if the key is
present, otherwise append. -/
def insertKey {α : Type} : List (String × α) → String → α → List (String × α)
  | [], k, v => [(k, v)]
  | p :: rest, k, v => if p.1 == k then (k, v) :: rest else p :: insertKey rest k v

/-- Models Python dict deletion `del d[k]` (removes every binding of the key;
on dict-like states with distinct keys this is the single deletion). -/
def eraseKey {α : Type} (l : List (String × α)) (k : String) :
    List (String × α) :=
  l.filter (fun p => !(p.1 == k))

/-- One record of the cache index (`index.json`, one entry per identifier).
`created` is the creation timestamp: `none` models a missing or unparsable
`"created"` field (`KeyError` / `ValueError` in `datetime.fromisoformat`). -/
structure CacheEntry where
  test_type : String
  created : Option Int
  has_raw_data : Bool
  result_file : String
  data_file : Option String
deriving DecidableEq, Repr, Inhabited

/-- The mutable state of a `CacheManager`: the index (entries plus the
`last_cleanup` stamp), the backing files keyed by path, and the configured
time-to-live. -/
structure CacheState where
  entries : List (String × CacheEntry)
  files : List (String × Json)
  lastCleanup : Option Int
  ttl : Int

/-- Path of the serialized result file for an identifier
(`test_results/{test_id}.json`). -/
def resultPath (testId : String) : String := "test_results/" ++ testId ++ ".json"

/-- Path of the raw-data file for an identifier
(`test_results/{test_id}_data.json`). -/
def dataPath (testId : String) : String := "test_results/" ++ testId ++ "_data.json"

/-- Models `CacheManager.cache_result`.  `ioFail` is true when writing the
payload or raw-data file raises `IOError`/`OSError`; the method then returns
the sentinel identifier `cache_error_{test_id}` instead of raising.  `now`
is the wall clock and `freshId` the identifier produced by
`generate_test_id` (a hash of test type, current time and object identity,
abstracted here as a parameter). -/
def cache_result (st : CacheState) (ioFail : Bool) (now : Int)
    (freshId : String) (testType : String) (testResult : Json)
    (rawData : Option Json) : String × CacheState :=
  if ioFail then
    ("cache_error_" ++ freshId, st)
  else
    let files₁ := insertKey st.files (resultPath freshId) testResult
    let writeData := match rawData with
      | some rd => rd.truthy
      | none => false
    let files₂ :=
      match rawData with
      | some rd => if rd.truthy then insertKey files₁ (dataPath freshId) rd else files₁
      | none => files₁
    let entry : CacheEntry :=
      { test_type := testType
        created := some now
        has_raw_data := rawData.isSome
        result_file := resultPath freshId
        data_file := if writeData then some (dataPath freshId) else none }
    (freshId, { st with files := files₂
                        entries := insertKey st.entries freshId entry })

/-- Models `CacheManager.get_result`.  The state is threaded through and
returned so that absence of mutation is a provable statement rather than a
typing convention. -/
def get_result (st : CacheState) (testId : String) (includeRaw : Bool) :
    Option Json × CacheState :=
  match lookup st.entries testId with
  | none => (none, st)
  | some entry =>
    match lookup st.files entry.result_file with
    | none => (none, st)
    | some result =>
      match entry.data_file with
      | some dp =>
        if includeRaw && entry.has_raw_data then
          match lookup st.files dp with
          | some rd => (some (result.setKey "raw_data" rd), st)
          | none => (some result, st)
        else (some result, st)
      | none => (some result, st)

/-- Models `CacheManager.delete_result`: best-effort removal of the backing
files followed by removal of the index entry; absent identifiers are
ignored. -/
def delete_result (st : CacheState) (testId : String) : CacheState :=
  match lookup st.entries testId with
  | none => st
  | some entry =>
    let files₁ := eraseKey st.files entry.result_file
    let files₂ :=
      match entry.data_file with
      | some dp => if entry.has_raw_data then eraseKey files₁ dp else files₁
      | none => files₁
    { st with files := files₂, entries := eraseKey st.entries testId }

/-- An index entry is expired at time `now` when its creation timestamp is
missing/unparsable or older than the time-to-live. -/
def isExpired (now ttl : Int) (e : CacheEntry) : Bool :=
  match e.created with
  | none => true
  | some c => decide (now - c > ttl)

/-- Identifiers collected by the expiry sweep of `_cleanup_expired`. -/
def expiredIds (st : CacheState) (now : Int) : List String :=
  (st.entries.filter (fun p => isExpired now st.ttl p.2)).map (·.1)

/-- Models `CacheManager._cleanup_expired` at wall-clock time `now`:
delete every expired entry via `delete_result`, then stamp
`last_cleanup`. -/
def cleanup_expired (st : CacheState) (now : Int) : CacheState :=
  let st' := (expiredIds st now).foldl delete_result st
  { st' with lastCleanup := some now }

/-- One row of `list_cached_tests` output. -/
structure CacheListing where
  test_id : String
  test_type : String
  created : Option Int
  has_raw_data : Bool
deriving DecidableEq, Repr

/-- Sort key for listings: most recent first, mirroring the ISO-8601
string sort of the source (a missing timestamp sorts last). -/
def listingLE (a b : CacheListing) : Bool :=
  match a.created, b.created with
  | some x, some y => decide (y ≤ x)
  | some _, none => true
  | none, some _ => false
  | none, none => true

/-- Models `CacheManager.list_cached_tests`: all live entries' metadata,
ordered by creation time, most recent first.  The state is threaded and
returned, as for `get_result`. -/
def list_cached_tests (st : CacheState) : List CacheListing × CacheState :=
  let tests := st.entries.map (fun p =>
    { test_id := p.1
      test_type := p.2.test_type
      created := p.2.created
      has_raw_data := p.2.has_raw_data : CacheListing })
  (tests.mergeSort (listingLE · ·), st)

/-! ### The Statistical Procedure Library oracle

The spec treats the numerical routines (scipy/numpy) as an external
collaborator.  Each field returns what the corresponding library call
returns; the embedding never constrains these values. -/

/-- Oracle record for the external Statistical Procedure Library. -/
structure StatLib where
  shapiro : Sample → ℚ × ℚ
  levene : String → List Sample → ℚ × ℚ
  ttest_1samp : Sample → ℚ → String → ℚ × ℚ
  ttest_ind : Sample → Sample → Bool → String → ℚ × ℚ
  ttest_rel : Sample → Sample → String → ℚ × ℚ
  mannwhitneyu : Sample → Sample → String → ℚ × ℚ
  wilcoxon : Sample → Sample → String → ℚ × ℚ
  kruskal : List Sample → ℚ × ℚ
  f_oneway : List Sample → ℚ × ℚ
  bartlett : List Sample → ℚ × ℚ
  kstest : Sample → String → ℚ × ℚ
  andersonStat : Sample → String → ℚ
  andersonCrit : Sample → String → ℚ × ℚ × ℚ × ℚ × ℚ
  jarque_bera : Sample → ℚ × ℚ
  skew : Sample → ℚ
  kurtosis : Sample → ℚ
  fCdf : ℚ → ℕ → ℕ → ℚ
  tInterval : ℚ → ℕ → ℚ → ℚ → ℚ × ℚ
  sqrtQ : ℚ → ℚ
  percentile : Sample → ℚ → ℚ
  medianQ : Sample → ℚ

/-- Models `np.std(data, ddof=1)` via the square-root oracle. -/
def sampleStd (lib : StatLib) (xs : Sample) : ℚ := lib.sqrtQ (sampleVar xs)

/-- Models `scipy.stats.sem(data)`. -/
def semQ (lib : StatLib) (xs : Sample) : ℚ :=
  sampleStd lib xs / lib.sqrtQ (xs.length : ℚ)

/-! ### The Test Strategy contract and the execution pipeline -/

/-- The polymorphic Test Strategy contract of `BaseHypothesisTest`.
Inputs are passed uniformly as a list of samples (the `*args` of the
Python methods); each concrete strategy reads its own arity. -/
structure Strategy where
  testType : String
  alpha : ℚ
  validate : List Sample → Bool
  checkAssumptions : List Sample → List (String × Bool)
  computeStatistic : List Sample → ℚ × ℚ
  interpret : ℚ → ℚ → List Sample → String
  nullHyp : String
  altHyp : String
  genRecommendation : String → List (String × Bool) → String
  effectSize : List Sample → Option ℚ
  confInterval : List Sample → Option (ℚ × ℚ)
  sampleSizes : List Sample → Option (List (String × ℕ))

/-- The structured result of one pipeline run (`TestResult` dataclass). -/
structure TestResult where
  test_name : String
  test_type : String
  statistic : ℚ
  p_value : ℚ
  alpha : ℚ
  significant : Bool
  null_hypothesis : String
  alternative_hypothesis : String
  decision : String
  interpretation : String
  recommendation : String
  effect_size : Option ℚ
  confidence_interval : Option (ℚ × ℚ)
  power : Option ℚ
  sample_sizes : Option (List (String × ℕ))
  assumptions_met : List (String × Bool)
  warnings : Option (List String)
  cache_id : Option String
deriving DecidableEq, Repr, Inhabited

/-- Fatal pipeline error: `validate_input` returning false raises
`ValueError(f"Input validation failed for {test_type}")`. -/
inductive RunError where
  | validationError (msg : String)
deriving DecidableEq, Repr

/-- Models `test_type().value.replace('_', ' ').title()`. -/
def testName (t : String) : String :=
  " ".intercalate (((t.replace "_" " ").splitOn " ").map String.capitalize)

/-- The cache manager as seen by one pipeline run: its state, whether the
pending write will fail with an I/O error, the wall clock, and the fresh
identifier that `generate_test_id` will produce. -/
structure CacheCtx where
  state : CacheState
  ioFail : Bool
  now : Int
  freshId : String

/-- Step 8 of the pipeline (`cache_detailed_results`): cache the keyword
arguments (statistic and p-value) when a cache manager was injected. -/
def cacheStep (cctx : Option CacheCtx) (testType : String) (payload : Json) :
    Option String × Option CacheState :=
  match cctx with
  | none => (none, none)
  | some c =>
    let r := cache_result c.state c.ioFail c.now c.freshId testType payload none
    (some r.1, some r.2)

/-- Models `BaseHypothesisTest.run`, the fixed nine-step Template Method
pipeline.  Returns the result (or the validation error) together with the
cache state after the run. -/
def runTest (s : Strategy) (cctx : Option CacheCtx) (input : List Sample) :
    Except RunError TestResult × Option CacheState :=
  if s.validate input = false then
    (.error (.validationError ("Input validation failed for " ++ s.testType)),
     cctx.map (·.state))
  else
    let assumptions := s.checkAssumptions input
    let warningsList := (assumptions.filter (fun p => !p.2)).map (·.1)
    let sp := s.computeStatistic input
    let significant := decide (sp.2 < s.alpha)
    let decision := if significant then "reject" else "fail_to_reject"
    let cs := cacheStep cctx s.testType
      (Json.obj [("statistic", Json.num sp.1), ("p_value", Json.num sp.2)])
    (.ok
      { test_name := testName s.testType
        test_type := s.testType
        statistic := sp.1
        p_value := sp.2
        alpha := s.alpha
        significant := significant
        null_hypothesis := s.nullHyp
        alternative_hypothesis := s.altHyp
        decision := decision
        interpretation := s.interpret sp.1 sp.2 input
        recommendation := s.genRecommendation decision assumptions
        effect_size := s.effectSize input
        confidence_interval := s.confInterval input
        power := none
        sample_sizes := s.sampleSizes input
        assumptions_met := assumptions
        warnings := if warningsList.isEmpty then none else some warningsList
        cache_id := cs.1 }, cs.2)

/-! ### Recommendation generation -/

/-- Names of the assumptions that failed their check. -/
def unmetOf (assumptions : List (String × Bool)) : List String :=
  (assumptions.filter (fun p => !p.2)).map (·.1)

/-- The fixed warning appended by the base `generate_recommendation` when
assumptions are unmet: it names them and suggests a non-parametric
alternative. -/
def baseWarningText (unmet : List String) : String :=
  " WARNING: Assumptions not met: " ++ String.intercalate ", " unmet ++
    ". Consider non-parametric alternatives."

/-- The decision-dependent sentence of the base `generate_recommendation`. -/
def baseBody (decision : String) : String :=
  if decision == "reject" then
    "Evidence suggests a significant effect. Consider practical significance and collect more data to confirm."
  else
    "Insufficient evidence to conclude an effect. Consider increasing sample size or effect size."

/-- Models `BaseHypothesisTest.generate_recommendation`. -/
def baseRecommendation (decision : String)
    (assumptions : List (String × Bool)) : String :=
  let unmet := unmetOf assumptions
  let warning := if unmet.isEmpty then "" else baseWarningText unmet
  baseBody decision ++ warning

/-- Models `dict.get(key, default)` on an assumption mapping. -/
def lookupD (assumptions : List (String × Bool)) (k : String) (d : Bool) : Bool :=
  match lookup assumptions k with
  | some v => v
  | none => d

/-- Models `ShapiroWilkTest.generate_recommendation` (full override; ignores
the assumption mapping). -/
def shapiroRecommendation (decision : String)
    (_assumptions : List (String × Bool)) : String :=
  if decision == "reject" then
    "Data violates normality assumption. Recommendations: (1) Use non-parametric alternatives, (2) Transform data (log, sqrt), (3) Increase sample size (n > 30) for CLT to apply."
  else
    "Data meets normality assumption. Parametric tests are appropriate."

/-- Models `LeveneTest.generate_recommendation` (full override; ignores the
assumption mapping). -/
def leveneRecommendation (decision : String)
    (_assumptions : List (String × Bool)) : String :=
  if decision == "reject" then
    "Variances differ significantly. Recommendations: (1) Use Welch\x27s t-test (unequal variances), (2) Use Welch\x27s ANOVA, (3) Transform data (log, sqrt) to stabilize variance, (4) Use non-parametric tests."
  else
    "Equal variance assumption met. Standard parametric tests are appropriate."

/-- Post-hoc sentence appended by `KruskalWallisTest.generate_recommendation`
on a rejection. -/
def kwPostHocText : String :=
  " Consider post-hoc pairwise comparisons (Dunn\x27s test) to identify which groups differ."

/-- Models `KruskalWallisTest.generate_recommendation`: the base text plus a
post-hoc suggestion on rejection. -/
def kruskalRecommendation (decision : String)
    (assumptions : List (String × Bool)) : String :=
  let base := baseRecommendation decision assumptions
  if decision == "reject" then base ++ kwPostHocText else base

/-- Post-hoc sentence appended by `OneWayANOVA.generate_recommendation` on a
rejection. -/
def anovaPostHocText : String :=
  " Consider post-hoc tests (Tukey HSD, Bonferroni) to identify which specific groups differ."

/-- Extra warning appended by `OneWayANOVA.generate_recommendation` when the
equal-variance assumption failed. -/
def anovaVarWarnText : String :=
  " WARNING: Equal variance assumption violated. Consider Welch\x27s ANOVA or Kruskal-Wallis test."

/-- Models `OneWayANOVA.generate_recommendation`. -/
def anovaRecommendation (decision : String)
    (assumptions : List (String × Bool)) : String :=
  let base := baseRecommendation decision assumptions
  let base := if decision == "reject" then base ++ anovaPostHocText else base
  if !(lookupD assumptions "equal_variances" true) then base ++ anovaVarWarnText
  else base

/-- Prefix prepended by `BartlettTest.generate_recommendation` when the
normality assumption failed. -/
def bartlettWarnText : String :=
  "WARNING: Bartlett\x27s test requires normality. Data may not be normal. Use Levene\x27s test instead (more robust). "

/-- Models `BartlettTest.generate_recommendation`. -/
def bartlettRecommendation (decision : String)
    (assumptions : List (String × Bool)) : String :=
  let base := baseRecommendation decision assumptions
  if !(lookupD assumptions "normality" true) then bartlettWarnText ++ base
  else base

/-- Prefix prepended by `FTestVariance.generate_recommendation` when either
group fails the normality check. -/
def fTestWarnText : String :=
  "WARNING: F-test requires normality. Use Levene\x27s test instead (more robust). "

/-- Models `FTestVariance.generate_recommendation`. -/
def fTestRecommendation (decision : String)
    (assumptions : List (String × Bool)) : String :=
  let base := baseRecommendation decision assumptions
  if !(lookupD assumptions "group1_normality" true) ||
     !(lookupD assumptions "group2_normality" true) then fTestWarnText ++ base
  else base

/-! ### Concrete Test Strategies: parametric t-tests (`t_tests.py`) -/

/-- Models the `OneSampleTTest` strategy class. -/
def oneSampleTTest (lib : StatLib) (alpha mu0 : ℚ) (alternative : String) :
    Strategy where
  testType := "one_sample_t_test"
  alpha := alpha
  validate := fun
    | [data] => decide (data.length > 1) && !hasNaN data
    | _ => false
  checkAssumptions := fun
    | [data] =>
      let isNormal :=
        if data.length < 5000 then decide ((lib.shapiro data).2 > 1/20) else true
      [("normality", isNormal || decide (data.length > 30)),
       ("independence", true),
       ("sufficient_sample_size", decide (data.length ≥ 2))]
    | _ => []
  computeStatistic := fun
    | [data] => lib.ttest_1samp data mu0 alternative
    | _ => (0, 0)
  interpret := fun _stat p input =>
    match input with
    | [data] =>
      let m := mean data
      let diff := m - mu0
      let pct := if mu0 ≠ 0 then diff / mu0 * 100 else 0
      if p < alpha then
        "The sample mean (" ++ fmtQ m ++ ") is statistically significantly different from the hypothesized value (" ++ fmtQ mu0 ++ "). This represents a " ++ fmtQ pct ++ "% change. With p=" ++ fmtQ p ++ " < α=" ++ fmtQ alpha ++ ", we reject H₀."
      else
        "The sample mean (" ++ fmtQ m ++ ") is not statistically significantly different from the hypothesized value (" ++ fmtQ mu0 ++ "). With p=" ++ fmtQ p ++ " ≥ α=" ++ fmtQ alpha ++ ", we fail to reject H₀. The observed difference could be due to random variation."
    | _ => "Insufficient data for interpretation"
  nullHyp := "H₀: μ = " ++ fmtQ mu0 ++ " (population mean equals " ++ fmtQ mu0 ++ ")"
  altHyp :=
    if alternative == "two-sided" then
      "H₁: μ ≠ " ++ fmtQ mu0 ++ " (population mean differs from " ++ fmtQ mu0 ++ ")"
    else if alternative == "greater" then
      "H₁: μ > " ++ fmtQ mu0 ++ " (population mean is greater than " ++ fmtQ mu0 ++ ")"
    else
      "H₁: μ < " ++ fmtQ mu0 ++ " (population mean is less than " ++ fmtQ mu0 ++ ")"
  genRecommendation := baseRecommendation
  effectSize := fun
    | [data] =>
      let std := sampleStd lib data
      if std = 0 then none else some ((mean data - mu0) / std)
    | _ => none
  confInterval := fun
    | [data] => some (lib.tInterval (1 - alpha) (data.length - 1) (mean data) (semQ lib data))
    | _ => none
  sampleSizes := fun
    | [data] => some [("n", data.length)]
    | _ => none

/-- Models the `TwoSampleTTest` strategy class. -/
def twoSampleTTest (lib : StatLib) (alpha : ℚ) (equalVar : Bool)
    (alternative : String) : Strategy where
  testType := "two_sample_t_test"
  alpha := alpha
  validate := fun
    | [g1, g2] =>
      decide (g1.length > 1) && decide (g2.length > 1) &&
        !hasNaN g1 && !hasNaN g2
    | _ => false
  checkAssumptions := fun
    | [g1, g2] =>
      let p1 := if g1.length < 5000 then (lib.shapiro g1).2 else 1
      let p2 := if g2.length < 5000 then (lib.shapiro g2).2 else 1
      let pLevene := (lib.levene "median" [g1, g2]).2
      [("group1_normality", decide (p1 > 1/20) || decide (g1.length > 30)),
       ("group2_normality", decide (p2 > 1/20) || decide (g2.length > 30)),
       ("equal_variances", decide (pLevene > 1/20)),
       ("independence", true)]
    | _ => []
  computeStatistic := fun
    | [g1, g2] => lib.ttest_ind g1 g2 equalVar alternative
    | _ => (0, 0)
  interpret := fun _stat p input =>
    match input with
    | [g1, g2] =>
      let m1 := mean g1
      let m2 := mean g2
      let diff := m1 - m2
      if p < alpha then
        "Group 1 (mean=" ++ fmtQ m1 ++ ") and Group 2 (mean=" ++ fmtQ m2 ++ ") are statistically significantly different (difference=" ++ fmtQ diff ++ "). With p=" ++ fmtQ p ++ " < α=" ++ fmtQ alpha ++ ", we reject H₀."
      else
        "No significant difference between Group 1 (mean=" ++ fmtQ m1 ++ ") and Group 2 (mean=" ++ fmtQ m2 ++ "). With p=" ++ fmtQ p ++ " ≥ α=" ++ fmtQ alpha ++ ", we fail to reject H₀."
    | _ => "Insufficient data for interpretation"
  nullHyp := "H₀: μ₁ = μ₂ (both groups have equal means)"
  altHyp :=
    if alternative == "two-sided" then "H₁: μ₁ ≠ μ₂ (groups have different means)"
    else if alternative == "greater" then "H₁: μ₁ > μ₂ (group 1 mean is greater)"
    else "H₁: μ₁ < μ₂ (group 1 mean is less)"
  genRecommendation := baseRecommendation
  effectSize := fun
    | [g1, g2] =>
      let n1 : ℚ := g1.length
      let n2 : ℚ := g2.length
      let pooled := lib.sqrtQ (((n1 - 1) * sampleVar g1 + (n2 - 1) * sampleVar g2) / (n1 + n2 - 2))
      if pooled = 0 then none else some ((mean g1 - mean g2) / pooled)
    | _ => none
  confInterval := fun _ => none
  sampleSizes := fun
    | [g1, g2] => some [("group1", g1.length), ("group2", g2.length)]
    | _ => none

/-- Models the `PairedTTest` strategy class. -/
def pairedTTest (lib : StatLib) (alpha : ℚ) (alternative : String) :
    Strategy where
  testType := "paired_t_test"
  alpha := alpha
  validate := fun
    | [before, after] =>
      decide (before.length = after.length) && decide (before.length > 1) &&
        !hasNaN before && !hasNaN after
    | _ => false
  checkAssumptions := fun
    | [before, after] =>
      let d := diffs after before
      let pNorm := if d.length < 5000 then (lib.shapiro d).2 else 1
      [("differences_normality", decide (pNorm > 1/20) || decide (d.length > 30)),
       ("paired_data", decide (before.length = after.length)),
       ("independence", true)]
    | _ => []
  computeStatistic := fun
    | [before, after] => lib.ttest_rel before after alternative
    | _ => (0, 0)
  interpret := fun _stat p input =>
    match input with
    | [before, after] =>
      let mb := mean before
      let ma := mean after
      let md := ma - mb
      if p < alpha then
        let direction := if md > 0 then "increased" else "decreased"
        "Measurements significantly " ++ direction ++ " from " ++ fmtQ mb ++ " to " ++ fmtQ ma ++ " (difference=" ++ fmtQ md ++ "). With p=" ++ fmtQ p ++ " < α=" ++ fmtQ alpha ++ ", we reject H₀."
      else
        "No significant change from " ++ fmtQ mb ++ " to " ++ fmtQ ma ++ ". With p=" ++ fmtQ p ++ " ≥ α=" ++ fmtQ alpha ++ ", we fail to reject H₀."
    | _ => "Insufficient data"
  nullHyp := "H₀: μ_diff = 0 (no difference between paired observations)"
  altHyp :=
    if alternative == "two-sided" then "H₁: μ_diff ≠ 0 (there is a difference)"
    else if alternative == "greater" then "H₁: μ_diff > 0 (after is greater than before)"
    else "H₁: μ_diff < 0 (after is less than before)"
  genRecommendation := baseRecommendation
  effectSize := fun
    | [before, after] =>
      let d := diffs after before
      let std := sampleStd lib d
      if std = 0 then none else some (mean d / std)
    | _ => none
  confInterval := fun
    | [before, after] =>
      let d := diffs after before
      some (lib.tInterval (1 - alpha) (d.length - 1) (mean d) (semQ lib d))
    | _ => none
  sampleSizes := fun
    | [before, _after] => some [("n_pairs", before.length)]
    | _ => none

/-! ### Concrete Test Strategies: ANOVA (`anova.py`) -/

/-- Enumerated per-group sample sizes, `{f"group_{i+1}": len(group)}`. -/
def groupSizes (groups : List Sample) : List (String × ℕ) :=
  groups.enum.map (fun p => ("group_" ++ toString (p.1 + 1), p.2.length))

/-- Listing of per-group statistics used by the k-group interpretations,
`", ".join(f"Group {i+1}: {v:.2f}" ...)`. -/
def groupListing (qs : List ℚ) : String :=
  String.intercalate ", " (qs.enum.map (fun p => "Group " ++ toString (p.1 + 1) ++ ": " ++ fmtQ p.2))

/-- Models the `OneWayANOVA` strategy class. -/
def oneWayANOVA (lib : StatLib) (alpha : ℚ) : Strategy where
  testType := "one_way_anova"
  alpha := alpha
  validate := fun groups =>
    decide (groups.length ≥ 2) &&
      groups.all (fun g => decide (g.length ≥ 2) && !hasNaN g)
  checkAssumptions := fun groups =>
    let allNormal := !(groups.any (fun g =>
      decide (g.length < 5000) && decide ((lib.shapiro g).2 ≤ 1/20) &&
        decide (g.length ≤ 30)))
    let equalVars :=
      if groups.length ≥ 2 then decide ((lib.levene "median" groups).2 > 1/20)
      else true
    [("independence", true),
     ("sufficient_groups", decide (groups.length ≥ 2)),
     ("normality", allNormal),
     ("equal_variances", equalVars)]
  computeStatistic := fun groups => lib.f_oneway groups
  interpret := fun stat p groups =>
    if groups.length > 0 then
      let ms := groups.map mean
      if p < alpha then
        "At least one group differs significantly (F=" ++ fmtQ stat ++ ", p=" ++ fmtQ p ++ "). Group means: " ++ groupListing ms ++ ". With p < α=" ++ fmtQ alpha ++ ", we reject H₀. Post-hoc tests recommended to identify which groups differ."
      else
        "No significant differences among " ++ toString groups.length ++ " groups (F=" ++ fmtQ stat ++ ", p=" ++ fmtQ p ++ "). With p ≥ α=" ++ fmtQ alpha ++ ", we fail to reject H₀. All groups may have similar means."
    else "Insufficient data"
  nullHyp := "H₀: μ₁ = μ₂ = ... = μ_k (all group means are equal)"
  altHyp := "H₁: At least one group mean differs from the others"
  genRecommendation := anovaRecommendation
  effectSize := fun groups =>
    let allData : Sample := groups.flatten
    let grand := mean allData
    let ssBetween := listSum (groups.map (fun g => (g.length : ℚ) * (mean g - grand) ^ 2))
    let ssTotal := listSum ((vals allData).map (fun v => (v - grand) ^ 2))
    if ssTotal = 0 then none else some (ssBetween / ssTotal)
  confInterval := fun _ => none
  sampleSizes := fun groups => some (groupSizes groups)

/-! ### Concrete Test Strategies: rank tests (`rank_tests.py`) -/

/-- Models the `MannWhitneyUTest` strategy class. -/
def mannWhitneyUTest (lib : StatLib) (alpha : ℚ) (alternative : String) :
    Strategy where
  testType := "mann_whitney_u"
  alpha := alpha
  validate := fun
    | [g1, g2] =>
      decide (g1.length > 0) && decide (g2.length > 0) &&
        !hasNaN g1 && !hasNaN g2
    | _ => false
  checkAssumptions := fun
    | [g1, g2] =>
      [("independence", true),
       ("ordinal_or_continuous", true),
       ("sufficient_sample_size", decide (g1.length ≥ 3) && decide (g2.length ≥ 3))]
    | _ => []
  computeStatistic := fun
    | [g1, g2] => lib.mannwhitneyu g1 g2 alternative
    | _ => (0, 0)
  interpret := fun stat p input =>
    match input with
    | [g1, g2] =>
      let m1 := lib.medianQ g1
      let m2 := lib.medianQ g2
      if p < alpha then
        "Groups differ significantly (U=" ++ fmtQ stat ++ ", p=" ++ fmtQ p ++ "). Group 1 median=" ++ fmtQ m1 ++ ", Group 2 median=" ++ fmtQ m2 ++ ". With p < α=" ++ fmtQ alpha ++ ", we reject H₀."
      else
        "No significant difference between groups (U=" ++ fmtQ stat ++ ", p=" ++ fmtQ p ++ "). With p ≥ α=" ++ fmtQ alpha ++ ", we fail to reject H₀."
    | _ => "Insufficient data"
  nullHyp := "H₀: The two groups have the same distribution (medians are equal)"
  altHyp :=
    if alternative == "two-sided" then
      "H₁: The two groups have different distributions (medians differ)"
    else if alternative == "greater" then
      "H₁: Group 1 has larger values than Group 2"
    else
      "H₁: Group 1 has smaller values than Group 2"
  genRecommendation := baseRecommendation
  effectSize := fun _ => none
  confInterval := fun _ => none
  sampleSizes := fun
    | [g1, g2] => some [("group1", g1.length), ("group2", g2.length)]
    | _ => none

/-- Models the `WilcoxonSignedRankTest` strategy class. -/
def wilcoxonSignedRankTest (lib : StatLib) (alpha : ℚ) (alternative : String) :
    Strategy where
  testType := "wilcoxon_signed_rank"
  alpha := alpha
  validate := fun
    | [before, after] =>
      decide (before.length = after.length) && decide (before.length > 0) &&
        !hasNaN before && !hasNaN after
    | _ => false
  checkAssumptions := fun
    | [before, after] =>
      let d := diffs after before
      let nonZero := d.filter (fun x => !(x.val == 0))
      [("paired_data", decide (before.length = after.length)),
       ("ordinal_or_continuous", true),
       ("sufficient_non_zero_differences", decide (nonZero.length ≥ 5))]
    | _ => []
  computeStatistic := fun
    | [before, after] => lib.wilcoxon before after alternative
    | _ => (0, 0)
  interpret := fun stat p input =>
    match input with
    | [before, after] =>
      let mb := lib.medianQ before
      let ma := lib.medianQ after
      let md := ma - mb
      if p < alpha then
        let direction := if md > 0 then "increased" else "decreased"
        "Values significantly " ++ direction ++ " (W=" ++ fmtQ stat ++ ", p=" ++ fmtQ p ++ "). Median before=" ++ fmtQ mb ++ ", after=" ++ fmtQ ma ++ ". With p < α=" ++ fmtQ alpha ++ ", we reject H₀."
      else
        "No significant change (W=" ++ fmtQ stat ++ ", p=" ++ fmtQ p ++ "). With p ≥ α=" ++ fmtQ alpha ++ ", we fail to reject H₀."
    | _ => "Insufficient data"
  nullHyp := "H₀: The median difference is zero (no change)"
  altHyp :=
    if alternative == "two-sided" then
      "H₁: The median difference is not zero (there is a change)"
    else if alternative == "greater" then
      "H₁: After values are greater than before"
    else
      "H₁: After values are less than before"
  genRecommendation := baseRecommendation
  effectSize := fun _ => none
  confInterval := fun _ => none
  sampleSizes := fun
    | [before, _after] => some [("n_pairs", before.length)]
    | _ => none

/-- Models the `KruskalWallisTest` strategy class. -/
def kruskalWallisTest (lib : StatLib) (alpha : ℚ) : Strategy where
  testType := "kruskal_wallis"
  alpha := alpha
  validate := fun groups =>
    decide (groups.length ≥ 2) &&
      groups.all (fun g => decide (g.length ≥ 1) && !hasNaN g)
  checkAssumptions := fun groups =>
    [("independence", true),
     ("ordinal_or_continuous", true),
     ("sufficient_groups", decide (groups.length ≥ 2)),
     ("sufficient_sample_size", groups.all (fun g => decide (g.length ≥ 5)))]
  computeStatistic := fun groups => lib.kruskal groups
  interpret := fun stat p groups =>
    if groups.length > 0 then
      let ms := groups.map lib.medianQ
      if p < alpha then
        "At least one group differs significantly (H=" ++ fmtQ stat ++ ", p=" ++ fmtQ p ++ "). Group medians: " ++ groupListing ms ++ ". With p < α=" ++ fmtQ alpha ++ ", we reject H₀. Post-hoc tests recommended."
      else
        "No significant differences among " ++ toString groups.length ++ " groups (H=" ++ fmtQ stat ++ ", p=" ++ fmtQ p ++ "). With p ≥ α=" ++ fmtQ alpha ++ ", we fail to reject H₀."
    else "Insufficient data"
  nullHyp := "H₀: All k groups have the same distribution (medians are equal)"
  altHyp := "H₁: At least one group has a different distribution"
  genRecommendation := kruskalRecommendation
  effectSize := fun _ => none
  confInterval := fun _ => none
  sampleSizes := fun groups => some (groupSizes groups)

/-! ### Concrete Test Strategies: normality tests (`normality_tests.py`) -/

/-- Models the `ShapiroWilkTest` strategy class. -/
def shapiroWilkTest (lib : StatLib) (alpha : ℚ) : Strategy where
  testType := "shapiro_wilk"
  alpha := alpha
  validate := fun
    | [data] =>
      decide (data.length ≥ 3) && decide (data.length ≤ 5000) && !hasNaN data
    | _ => false
  checkAssumptions := fun
    | [data] =>
      [("sufficient_sample_size", decide (3 ≤ data.length) && decide (data.length ≤ 5000)),
       ("no_missing_values", !hasNaN data)]
    | _ => []
  computeStatistic := fun
    | [data] => lib.shapiro data
    | _ => (0, 0)
  interpret := fun stat p _input =>
    if p < alpha then
      "Data is NOT normally distributed (W=" ++ fmtQ stat ++ ", p=" ++ fmtQ p ++ "). With p < α=" ++ fmtQ alpha ++ ", we reject H₀. Consider using non-parametric tests (Mann-Whitney, Kruskal-Wallis)."
    else
      "Data appears normally distributed (W=" ++ fmtQ stat ++ ", p=" ++ fmtQ p ++ "). With p ≥ α=" ++ fmtQ alpha ++ ", we fail to reject H₀. Safe to use parametric tests (t-test, ANOVA)."
  nullHyp := "H₀: Data follows a normal distribution"
  altHyp := "H₁: Data does not follow a normal distribution"
  genRecommendation := shapiroRecommendation
  effectSize := fun _ => none
  confInterval := fun _ => none
  sampleSizes := fun
    | [data] => some [("n", data.length)]
    | _ => none

/-- Models the `KolmogorovSmirnovTest` strategy class. -/
def kolmogorovSmirnovTest (lib : StatLib) (alpha : ℚ) (distribution : String) :
    Strategy where
  testType := "kolmogorov_smirnov"
  alpha := alpha
  validate := fun
    | [data] => decide (data.length ≥ 5) && !hasNaN data
    | _ => false
  checkAssumptions := fun
    | [data] =>
      [("sufficient_sample_size", decide (data.length ≥ 5)),
       ("continuous_data", true)]
    | _ => []
  computeStatistic := fun
    | [data] =>
      if distribution == "norm" then
        let m := mean data
        let s := sampleStd lib data
        let standardized : Sample := data.map (fun d => ⟨(d.val - m) / s, d.isNaN⟩)
        lib.kstest standardized "norm"
      else
        lib.kstest data distribution
    | _ => (0, 0)
  interpret := fun stat p _input =>
    if p < alpha then
      "Data does NOT follow " ++ distribution ++ " distribution (D=" ++ fmtQ stat ++ ", p=" ++ fmtQ p ++ "). With p < α=" ++ fmtQ alpha ++ ", we reject H₀."
    else
      "Data appears to follow " ++ distribution ++ " distribution (D=" ++ fmtQ stat ++ ", p=" ++ fmtQ p ++ "). With p ≥ α=" ++ fmtQ alpha ++ ", we fail to reject H₀."
  nullHyp := "H₀: Data follows a " ++ distribution ++ " distribution"
  altHyp := "H₁: Data does not follow a " ++ distribution ++ " distribution"
  genRecommendation := baseRecommendation
  effectSize := fun _ => none
  confInterval := fun _ => none
  sampleSizes := fun
    | [data] => some [("n", data.length)]
    | _ => none

/-- P-value estimation ladder of `AndersonDarlingTest.compute_statistic`,
reading the statistic against the five critical values. -/
def andersonPValue (stat : ℚ) (crit : ℚ × ℚ × ℚ × ℚ × ℚ) : ℚ :=
  if stat < crit.1 then 15/100
  else if stat < crit.2.1 then 10/100
  else if stat < crit.2.2.1 then 5/100
  else if stat < crit.2.2.2.1 then 25/1000
  else if stat < crit.2.2.2.2 then 1/100
  else 5/1000

/-- Models the `AndersonDarlingTest` strategy class. -/
def andersonDarlingTest (lib : StatLib) (alpha : ℚ) (distribution : String) :
    Strategy where
  testType := "anderson_darling"
  alpha := alpha
  validate := fun
    | [data] => decide (data.length ≥ 7) && !hasNaN data
    | _ => false
  checkAssumptions := fun
    | [data] =>
      [("sufficient_sample_size", decide (data.length ≥ 7)),
       ("continuous_data", true)]
    | _ => []
  computeStatistic := fun
    | [data] =>
      let stat := lib.andersonStat data distribution
      (stat, andersonPValue stat (lib.andersonCrit data distribution))
    | _ => (0, 0)
  interpret := fun stat p _input =>
    if p < alpha then
      "Data does NOT follow " ++ distribution ++ " distribution (A²=" ++ fmtQ stat ++ ", p≈" ++ fmtQ p ++ "). With p < α=" ++ fmtQ alpha ++ ", we reject H₀. Particularly sensitive to tail deviations."
    else
      "Data appears to follow " ++ distribution ++ " distribution (A²=" ++ fmtQ stat ++ ", p≈" ++ fmtQ p ++ "). With p ≥ α=" ++ fmtQ alpha ++ ", we fail to reject H₀."
  nullHyp := "H₀: Data follows a " ++ distribution ++ " distribution"
  altHyp := "H₁: Data does not follow a " ++ distribution ++ " distribution"
  genRecommendation := baseRecommendation
  effectSize := fun _ => none
  confInterval := fun _ => none
  sampleSizes := fun
    | [data] => some [("n", data.length)]
    | _ => none

/-- Models the `JarqueBeraTest` strategy class. -/
def jarqueBeraTest (lib : StatLib) (alpha : ℚ) : Strategy where
  testType := "jarque_bera"
  alpha := alpha
  validate := fun
    | [data] => decide (data.length ≥ 7) && !hasNaN data
    | _ => false
  checkAssumptions := fun
    | [data] =>
      [("sufficient_sample_size", decide (data.length ≥ 7)),
       ("works_best_large_n", decide (data.length > 2000))]
    | _ => []
  computeStatistic := fun
    | [data] => lib.jarque_bera data
    | _ => (0, 0)
  interpret := fun stat p input =>
    match input with
    | [data] =>
      let sk := lib.skew data
      let ku := lib.kurtosis data
      if p < alpha then
        "Data is NOT normally distributed (JB=" ++ fmtQ stat ++ ", p=" ++ fmtQ p ++ "). Skewness=" ++ fmtQ sk ++ ", Excess Kurtosis=" ++ fmtQ ku ++ ". With p < α=" ++ fmtQ alpha ++ ", we reject H₀."
      else
        "Data appears normally distributed (JB=" ++ fmtQ stat ++ ", p=" ++ fmtQ p ++ "). Skewness=" ++ fmtQ sk ++ ", Excess Kurtosis=" ++ fmtQ ku ++ ". With p ≥ α=" ++ fmtQ alpha ++ ", we fail to reject H₀."
    | _ => "Insufficient data"
  nullHyp := "H₀: Data has normal skewness and kurtosis (follows normal distribution)"
  altHyp := "H₁: Data has non-normal skewness or kurtosis"
  genRecommendation := baseRecommendation
  effectSize := fun _ => none
  confInterval := fun _ => none
  sampleSizes := fun
    | [data] => some [("n", data.length)]
    | _ => none

/-! ### Concrete Test Strategies: variance tests (`variance_tests.py`) -/

/-- Models the `LeveneTest` strategy class. -/
def leveneTest (lib : StatLib) (alpha : ℚ) (center : String) : Strategy where
  testType := "levene"
  alpha := alpha
  validate := fun groups =>
    decide (groups.length ≥ 2) &&
      groups.all (fun g => decide (g.length ≥ 2) && !hasNaN g)
  checkAssumptions := fun groups =>
    [("sufficient_groups", decide (groups.length ≥ 2)),
     ("sufficient_sample_size", groups.all (fun g => decide (g.length ≥ 2))),
     ("continuous_data", true)]
  computeStatistic := fun groups => lib.levene center groups
  interpret := fun stat p groups =>
    if groups.length > 0 then
      let gvars := groups.map sampleVar
      if p < alpha then
        "Variances are NOT equal (W=" ++ fmtQ stat ++ ", p=" ++ fmtQ p ++ "). Group variances: " ++ groupListing gvars ++ ". With p < α=" ++ fmtQ alpha ++ ", we reject H₀. Use Welch\x27s t-test/ANOVA or transform data."
      else
        "Variances appear equal (W=" ++ fmtQ stat ++ ", p=" ++ fmtQ p ++ "). With p ≥ α=" ++ fmtQ alpha ++ ", we fail to reject H₀. Standard t-test/ANOVA assumptions met."
    else "Insufficient data"
  nullHyp := "H₀: All k groups have equal variances (homoscedasticity)"
  altHyp := "H₁: At least one group has different variance (heteroscedasticity)"
  genRecommendation := leveneRecommendation
  effectSize := fun _ => none
  confInterval := fun _ => none
  sampleSizes := fun groups => some (groupSizes groups)

/-- Models the `BartlettTest` strategy class. -/
def bartlettTest (lib : StatLib) (alpha : ℚ) : Strategy where
  testType := "bartlett"
  alpha := alpha
  validate := fun groups =>
    decide (groups.length ≥ 2) &&
      groups.all (fun g => decide (g.length ≥ 2) && !hasNaN g)
  checkAssumptions := fun groups =>
    let allNormal := !(groups.any (fun g =>
      decide (g.length < 5000) && decide ((lib.shapiro g).2 ≤ 1/20)))
    [("sufficient_groups", decide (groups.length ≥ 2)),
     ("sufficient_sample_size", groups.all (fun g => decide (g.length ≥ 2))),
     ("normality", allNormal)]
  computeStatistic := fun groups => lib.bartlett groups
  interpret := fun stat p groups =>
    if groups.length > 0 then
      let gvars := groups.map sampleVar
      if p < alpha then
        "Variances differ significantly (T=" ++ fmtQ stat ++ ", p=" ++ fmtQ p ++ "). Group variances: " ++ groupListing gvars ++ ". With p < α=" ++ fmtQ alpha ++ ", we reject H₀."
      else
        "Variances appear equal (T=" ++ fmtQ stat ++ ", p=" ++ fmtQ p ++ "). With p ≥ α=" ++ fmtQ alpha ++ ", we fail to reject H₀."
    else "Insufficient data"
  nullHyp := "H₀: All groups have equal variances"
  altHyp := "H₁: At least one group has different variance"
  genRecommendation := bartlettRecommendation
  effectSize := fun _ => none
  confInterval := fun _ => none
  sampleSizes := fun groups => some (groupSizes groups)

/-- F-statistic and p-value computation of `FTestVariance.compute_statistic`
(the variance ratio is in-source arithmetic; the F distribution CDF is the
external library). -/
def fTestStatistic (lib : StatLib) (alternative : String)
    (g1 g2 : Sample) : ℚ × ℚ :=
  let var1 := sampleVar g1
  let var2 := sampleVar g2
  let fStat := if var1 ≥ var2 then var1 / var2 else var2 / var1
  let df1 := if var1 ≥ var2 then g1.length - 1 else g2.length - 1
  let df2 := if var1 ≥ var2 then g2.length - 1 else g1.length - 1
  let p :=
    if alternative == "two-sided" then
      2 * min (lib.fCdf fStat df1 df2) (1 - lib.fCdf fStat df1 df2)
    else if alternative == "greater" then
      1 - lib.fCdf fStat df1 df2
    else
      lib.fCdf fStat df1 df2
  (fStat, p)

/-- Models the `FTestVariance` strategy class. -/
def fTestVariance (lib : StatLib) (alpha : ℚ) (alternative : String) :
    Strategy where
  testType := "f_test_variance"
  alpha := alpha
  validate := fun
    | [g1, g2] =>
      decide (g1.length ≥ 2) && decide (g2.length ≥ 2) &&
        !hasNaN g1 && !hasNaN g2
    | _ => false
  checkAssumptions := fun
    | [g1, g2] =>
      let p1 := if g1.length < 5000 then (lib.shapiro g1).2 else 1
      let p2 := if g2.length < 5000 then (lib.shapiro g2).2 else 1
      [("group1_normality", decide (p1 > 1/20)),
       ("group2_normality", decide (p2 > 1/20)),
       ("sufficient_sample_size", decide (g1.length ≥ 2) && decide (g2.length ≥ 2))]
    | _ => []
  computeStatistic := fun
    | [g1, g2] => fTestStatistic lib alternative g1 g2
    | _ => (0, 0)
  interpret := fun stat p input =>
    match input with
    | [g1, g2] =>
      let var1 := sampleVar g1
      let var2 := sampleVar g2
      if p < alpha then
        "Variances differ significantly (F=" ++ fmtQ stat ++ ", p=" ++ fmtQ p ++ "). Var1=" ++ fmtQ var1 ++ ", Var2=" ++ fmtQ var2 ++ ", Ratio=" ++ fmtQ (var1 / var2) ++ ". With p < α=" ++ fmtQ alpha ++ ", we reject H₀. Use Welch\x27s t-test."
      else
        "Variances appear equal (F=" ++ fmtQ stat ++ ", p=" ++ fmtQ p ++ "). Var1=" ++ fmtQ var1 ++ ", Var2=" ++ fmtQ var2 ++ ". With p ≥ α=" ++ fmtQ alpha ++ ", we fail to reject H₀. Standard t-test OK."
    | _ => "Insufficient data"
  nullHyp := "H₀: σ₁² = σ₂² (variances are equal)"
  altHyp :=
    if alternative == "two-sided" then "H₁: σ₁² ≠ σ₂² (variances are different)"
    else if alternative == "greater" then "H₁: σ₁² > σ₂² (variance 1 is greater)"
    else "H₁: σ₁² < σ₂² (variance 1 is less)"
  genRecommendation := fTestRecommendation
  effectSize := fun _ => none
  confInterval := fun _ => none
  sampleSizes := fun
    | [g1, g2] => some [("group1", g1.length), ("group2", g2.length)]
    | _ => none

/-- The full family of modelled Test Strategy variants, one per concrete
class of the repository, with their constructor parameters abstracted. -/
def allStrategies (lib : StatLib) (alpha mu0 : ℚ) (alternative : String)
    (equalVar : Bool) (center distribution : String) : List Strategy :=
  [oneSampleTTest lib alpha mu0 alternative,
   twoSampleTTest lib alpha equalVar alternative,
   pairedTTest lib alpha alternative,
   oneWayANOVA lib alpha,
   mannWhitneyUTest lib alpha alternative,
   wilcoxonSignedRankTest lib alpha alternative,
   kruskalWallisTest lib alpha,
   shapiroWilkTest lib alpha,
   kolmogorovSmirnovTest lib alpha distribution,
   andersonDarlingTest lib alpha distribution,
   jarqueBeraTest lib alpha,
   leveneTest lib alpha center,
   bartlettTest lib alpha,
   fTestVariance lib alpha alternative]

/-! ### The Test Suggestion Engine (`test_suggester.py`) -/

/-- Data characteristics computed by `TestSuggester.analyze_data`. -/
structure DataCharacteristics where
  n_samples : ℕ
  n_groups : ℕ
  is_paired : Bool
  is_normal : Bool
  equal_variances : Bool
  data_type : String
  has_outliers : Bool
  sample_size_adequate : Bool
deriving DecidableEq, Repr, Inhabited

/-- A test suggestion as returned by `TestSuggester.suggest_test` (optional
dictionary keys become `Option` fields). -/
structure Suggestion where
  primary_test : String
  test_name : String
  reason : String
  confidence : String
  parameters : List (String × Json)
  alternative_tests : List String
  assumptions_met : Bool
  warning : Option String
  post_hoc : Option String
deriving Inhabited

/-- Models `TestSuggester._check_normality`: every group whose size is in
the supported Shapiro-Wilk range must not reject normality, with small
samples (`n < 30`) the only ones that can fail. -/
def checkNormality (lib : StatLib) (groups : List Sample) : Bool :=
  groups.all (fun g =>
    if 3 ≤ g.length ∧ g.length ≤ 5000 then
      !(decide ((lib.shapiro g).2 < 1/20) && decide (g.length < 30))
    else true)

/-- Models `TestSuggester._check_equal_variances` (robust Levene check with
its default median centering; the library oracle stands in for the scipy
call, whose failure path returns `True`). -/
def checkEqualVariances (lib : StatLib) (groups : List Sample) : Bool :=
  if groups.length < 2 then true
  else decide ((lib.levene "median" groups).2 ≥ 1/20)

/-- Models `TestSuggester._infer_data_type`: measurement scale inferred from
the number of distinct values relative to the sample size. -/
def inferDataType (data : Sample) : String :=
  let uniqueValues := (vals data).dedup.length
  if uniqueValues ≤ 10 then "ordinal"
  else if (uniqueValues : ℚ) / (data.length : ℚ) < 5/100 then "nominal"
  else "continuous"

/-- Models `TestSuggester._check_outliers` (standard IQR rule; the
percentiles come from the numpy oracle). -/
def checkOutliers (lib : StatLib) (groups : List Sample) : Bool :=
  groups.any (fun g =>
    let q1 := lib.percentile g 25
    let q3 := lib.percentile g 75
    let iqr := q3 - q1
    let lower := q1 - 3/2 * iqr
    let upper := q3 + 3/2 * iqr
    0 < (g.countP (fun d => decide (d.val < lower) || decide (d.val > upper))))

/-- Minimum of the per-group sample sizes (`min(sample_sizes)`). -/
def minSize (groups : List Sample) : ℕ :=
  match groups.map (·.length) with
  | [] => 0
  | n :: rest => rest.foldl min n

/-- Models `TestSuggester.analyze_data`; `none` models the `ValueError`
raised when no data group is supplied. -/
def analyze_data (lib : StatLib) (groups : List Sample) :
    Option DataCharacteristics :=
  match groups with
  | [] => none
  | g0 :: _ =>
    let sizes := groups.map (·.length)
    let totalN := sizes.foldl (· + ·) 0
    let minN := minSize groups
    let isPaired :=
      match sizes with
      | [n1, n2] => decide (n1 = n2) && decide (n1 < 100)
      | _ => false
    let isNormal := checkNormality lib groups
    let equalVariances :=
      if groups.length ≥ 2 then checkEqualVariances lib groups else true
    some
      { n_samples := totalN
        n_groups := groups.length
        is_paired := isPaired
        is_normal := isNormal
        equal_variances := equalVariances
        data_type := inferDataType g0
        has_outliers := checkOutliers lib groups
        sample_size_adequate :=
          decide (minN ≥ 30) || (decide (minN ≥ 20) && isNormal) }

/-- Models `TestSuggester._suggest_one_sample_test` (branch of the decision
table for a single group).  `mu0` is `kwargs.get('mu0', None)`; the
`{"mu0": mu0} if mu0 else {}` guard tests Python truthiness. -/
def suggestOneSample (chars : DataCharacteristics) (mu0 : Option ℚ) :
    Suggestion :=
  if chars.data_type == "continuous" then
    if chars.is_normal || chars.sample_size_adequate then
      { primary_test := "one_sample_t_test"
        test_name := "One-Sample T-Test"
        reason := "Data is continuous and approximately normal (or n ≥ 30)"
        confidence := "high"
        parameters :=
          match mu0 with
          | some v => if v = 0 then [] else [("mu0", Json.num v)]
          | none => []
        alternative_tests := ["sign_test", "wilcoxon_signed_rank"]
        assumptions_met := true
        warning := none
        post_hoc := none }
    else
      { primary_test := "wilcoxon_signed_rank"
        test_name := "Wilcoxon Signed-Rank Test"
        reason := "Data is continuous but not normal with small sample size"
        confidence := "high"
        parameters := []
        alternative_tests := ["sign_test"]
        assumptions_met := true
        warning := none
        post_hoc := none }
  else
    { primary_test := "sign_test"
      test_name := "Sign Test"
      reason := "Data is ordinal/nominal"
      confidence := "medium"
      parameters := []
      alternative_tests := []
      assumptions_met := true
      warning := none
      post_hoc := none }

/-- Models `TestSuggester._suggest_two_sample_test`. -/
def suggestTwoSample (chars : DataCharacteristics) : Suggestion :=
  if chars.is_paired then
    if chars.data_type == "continuous" then
      if chars.is_normal || chars.sample_size_adequate then
        { primary_test := "paired_t_test"
          test_name := "Paired T-Test"
          reason := "Paired data, continuous, and approximately normal"
          confidence := "high"
          parameters := []
          alternative_tests := ["wilcoxon_signed_rank"]
          assumptions_met := true
          warning := none
          post_hoc := none }
      else
        { primary_test := "wilcoxon_signed_rank"
          test_name := "Wilcoxon Signed-Rank Test"
          reason := "Paired data, continuous, but not normal with small sample"
          confidence := "high"
          parameters := []
          alternative_tests := ["sign_test"]
          assumptions_met := true
          warning := none
          post_hoc := none }
    else
      { primary_test := "wilcoxon_signed_rank"
        test_name := "Wilcoxon Signed-Rank Test"
        reason := "Paired ordinal data"
        confidence := "high"
        parameters := []
        alternative_tests := ["sign_test"]
        assumptions_met := true
        warning := none
        post_hoc := none }
  else
    if chars.data_type == "continuous" then
      if chars.is_normal || chars.sample_size_adequate then
        if chars.equal_variances then
          { primary_test := "two_sample_t_test"
            test_name := "Independent Two-Sample T-Test"
            reason := "Independent groups, continuous, normal, equal variances"
            confidence := "high"
            parameters := [("equal_var", Json.boolv true)]
            alternative_tests := ["mann_whitney_u"]
            assumptions_met := true
            warning := none
            post_hoc := none }
        else
          { primary_test := "two_sample_t_test"
            test_name := "Welch\x27s T-Test"
            reason := "Independent groups, continuous, normal, but unequal variances"
            confidence := "high"
            parameters := [("equal_var", Json.boolv false)]
            alternative_tests := ["mann_whitney_u"]
            assumptions_met := false
            warning := some "Equal variance assumption violated - using Welch\x27s test"
            post_hoc := none }
      else
        { primary_test := "mann_whitney_u"
          test_name := "Mann-Whitney U Test"
          reason := "Independent groups, continuous, but not normal with small sample"
          confidence := "high"
          parameters := []
          alternative_tests := []
          assumptions_met := true
          warning := none
          post_hoc := none }
    else
      { primary_test := "mann_whitney_u"
        test_name := "Mann-Whitney U Test"
        reason := "Independent groups with ordinal data"
        confidence := "high"
        parameters := []
        alternative_tests := []
        assumptions_met := true
        warning := none
        post_hoc := none }

/-- Models `TestSuggester._suggest_multi_sample_test`. -/
def suggestMultiSample (chars : DataCharacteristics) : Suggestion :=
  if chars.data_type == "continuous" then
    if chars.is_normal || chars.sample_size_adequate then
      if chars.equal_variances then
        { primary_test := "one_way_anova"
          test_name := "One-Way ANOVA"
          reason := toString chars.n_groups ++ " groups, continuous, normal, equal variances"
          confidence := "high"
          parameters := []
          alternative_tests := ["kruskal_wallis"]
          assumptions_met := true
          warning := none
          post_hoc := some "Consider Tukey HSD if significant" }
      else
        { primary_test := "kruskal_wallis"
          test_name := "Kruskal-Wallis Test"
          reason := toString chars.n_groups ++ " groups, continuous, but unequal variances"
          confidence := "high"
          parameters := []
          alternative_tests := []
          assumptions_met := false
          warning := some "Equal variance assumption violated - using non-parametric test"
          post_hoc := some "Consider Dunn\x27s test if significant" }
    else
      { primary_test := "kruskal_wallis"
        test_name := "Kruskal-Wallis Test"
        reason := toString chars.n_groups ++ " groups, continuous, not normal with small sample"
        confidence := "high"
        parameters := []
        alternative_tests := []
        assumptions_met := true
        warning := none
        post_hoc := some "Consider Dunn\x27s test if significant" }
  else
    { primary_test := "kruskal_wallis"
      test_name := "Kruskal-Wallis Test"
      reason := toString chars.n_groups ++ " groups with ordinal data"
      confidence := "high"
      parameters := []
      alternative_tests := []
      assumptions_met := true
      warning := none
      post_hoc := some "Consider Dunn\x27s test if significant" }

/-- Models `TestSuggester.suggest_test`: analyze the data, then apply the
decision table by group count. -/
def suggest_test (lib : StatLib) (groups : List Sample) (mu0 : Option ℚ) :
    Option Suggestion :=
  (analyze_data lib groups).map (fun chars =>
    if chars.n_groups == 1 then suggestOneSample chars mu0
    else if chars.n_groups == 2 then suggestTwoSample chars
    else suggestMultiSample chars)

/-! ### Neutral recommendations and concrete fixtures -/

/-- The decision-only recommendation each strategy produces when every
assumption check passed: its `generate_recommendation` evaluated on an
all-met (empty-warning) assumption mapping. -/
def neutralRecommendation (t d : String) : String :=
  if t == "shapiro_wilk" then shapiroRecommendation d []
  else if t == "levene" then leveneRecommendation d []
  else if t == "kruskal_wallis" then kruskalRecommendation d []
  else if t == "one_way_anova" then anovaRecommendation d []
  else baseRecommendation d []

/-- A trivial instantiation of the Statistical Procedure Library, used to
evaluate the pipeline on concrete inputs. -/
def trivLib : StatLib where
  shapiro := fun _ => (1, 1/2)
  levene := fun _ _ => (1, 1/2)
  ttest_1samp := fun _ _ _ => (2, 1/25)
  ttest_ind := fun _ _ _ _ => (1, 1/2)
  ttest_rel := fun _ _ _ => (1, 1/2)
  mannwhitneyu := fun _ _ _ => (1, 1/2)
  wilcoxon := fun _ _ _ => (1, 1/2)
  kruskal := fun _ => (1, 1/2)
  f_oneway := fun _ => (1, 1/2)
  bartlett := fun _ => (1, 1/2)
  kstest := fun _ _ => (1, 1/2)
  andersonStat := fun _ _ => 1
  andersonCrit := fun _ _ => (2, 3, 4, 5, 6)
  jarque_bera := fun _ => (1, 1/2)
  skew := fun _ => 0
  kurtosis := fun _ => 0
  fCdf := fun _ _ _ => 1/2
  tInterval := fun _ _ _ _ => (0, 1)
  sqrtQ := fun _ => 1
  percentile := fun _ _ => 0
  medianQ := fun _ => 0

/-- Concrete NaN-free sample used by several witnesses. -/
def sampleA : Sample := [⟨1, false⟩, ⟨2, false⟩, ⟨3, false⟩]

/-- Concrete one-sample t-test strategy instance for the C1 witness. -/
def stratC1 : Strategy := oneSampleTTest trivLib (1/20) 0 "two-sided"

/-- The result the pipeline produces on the C1 witness input. -/
def resC1 : TestResult := ((runTest stratC1 none [sampleA]).1).toOption.get!

/-- Concrete paired samples of unequal length for the C2 witness. -/
def beforeC2 : Sample := [⟨1, false⟩, ⟨2, false⟩]

/-- Second member of the unequal-length pair for the C2 witness. -/
def afterC2 : Sample := [⟨1, false⟩, ⟨2, false⟩, ⟨3, false⟩]

/-- Empty cache state with a 24-hour time-to-live, for cache witnesses. -/
def emptyCache : CacheState :=
  { entries := [], files := [], lastCleanup := none, ttl := 24 }

/-- Simple JSON payload for cache witnesses. -/
def payloadW : Json := Json.obj [("statistic", Json.num 2), ("p_value", Json.num (1/25))]

/-- Sixteen-character identifier of the shape `generate_test_id` returns. -/
def idW : String := "0123456789abcdef"

/-- Index entry whose creation timestamp is missing or unparsable, for the
C6 witness. -/
def corruptEntry : CacheEntry :=
  { test_type := "one_sample_t_test", created := none, has_raw_data := false,
    result_file := resultPath idW, data_file := none }

/-- Cache state holding one entry whose creation timestamp is missing or
unparsable, for the C6 witness. -/
def corruptCache : CacheState :=
  { entries := [(idW, corruptEntry)]
    files := [(resultPath idW, payloadW)]
    lastCleanup := none
    ttl := 24 }

/-- Single-group sample with 31 distinct values for the C8 witness
(continuous scale, adequate size). -/
def sampleC8 : Sample := (List.range 31).map (fun i => ⟨(i : ℚ), false⟩)

/-- Characteristics the suggester computes on the C8 witness sample. -/
def charsC8 : DataCharacteristics := (analyze_data trivLib [sampleC8]).get!

/-- Suggestion returned on the C8 witness sample. -/
def sugC8 : Suggestion := (suggest_test trivLib [sampleC8] none).get!

/-- Sample with more than 5000 NaN-free observations for the C10 witness. -/
def bigSample : Sample := List.replicate 5001 ⟨0, false⟩

/-- Shapiro-Wilk strategy instance for the C4 and C10 witnesses. -/
def stratSW : Strategy := shapiroWilkTest trivLib (1/20)

/-- The result the pipeline produces on the C4 witness input. -/
def resC4 : TestResult := ((runTest stratSW none [sampleA]).1).toOption.get!

/-- Identifier and state produced by the C3 witness cache write. -/
def cacheOutC3 : String × CacheState :=
  cache_result emptyCache false 0 idW "one_sample_t_test" payloadW none

/-! ### Association-map lemmas -/

theorem lookup_some_mem {α : Type} {l : List (String × α)} {k : String} {v : α}
    (h : lookup l k = some v) : (k, v) ∈ l := by
  induction l with
  | nil => simp [lookup] at h
  | cons p rest ih =>
    rw [lookup] at h
    by_cases hk : p.1 == k
    · rw [if_pos hk] at h
      have h1 : p.1 = k := by simpa using hk
      have h2 : p.2 = v := by simpa using h
      have hpk : p = (k, v) := by cases p; simp_all
      simp [hpk]
    · rw [if_neg hk] at h
      exact List.mem_cons_of_mem _ (ih h)

theorem lookup_insertKey_self {α : Type} (l : List (String × α)) (k : String)
    (v : α) : lookup (insertKey l k v) k = some v := by
  induction l with
  | nil => simp [insertKey, lookup]
  | cons p rest ih =>
    rw [insertKey]
    by_cases hk : p.1 == k
    · rw [if_pos hk]; simp [lookup]
    · rw [if_neg hk, lookup, if_neg hk]; exact ih

theorem lookup_insertKey_ne {α : Type} (l : List (String × α)) {k k' : String}
    (v : α) (hne : k' ≠ k) : lookup (insertKey l k v) k' = lookup l k' := by
  induction l with
  | nil =>
    have : ¬(k == k') := by simpa using fun h => hne h.symm
    simp [insertKey, lookup, this]
  | cons p rest ih =>
    rw [insertKey]
    by_cases hk : p.1 == k
    · rw [if_pos hk]
      have h1 : p.1 = k := by simpa using hk
      have hkk : ¬(k == k') := by simpa using fun h => hne h.symm
      rw [lookup, if_neg hkk, lookup, h1, if_neg hkk]
    · rw [if_neg hk, lookup, lookup]
      by_cases hp : p.1 == k'
      · rw [if_pos hp, if_pos hp]
      · rw [if_neg hp, if_neg hp]; exact ih

theorem lookup_eraseKey_self {α : Type} (l : List (String × α)) (k : String) :
    lookup (eraseKey l k) k = none := by
  induction l with
  | nil => simp [eraseKey, lookup]
  | cons p rest ih =>
    rw [eraseKey, List.filter]
    by_cases hk : p.1 == k
    · simp only [hk, Bool.not_true]
      exact ih
    · simp only [hk, Bool.not_false]
      rw [lookup, if_neg hk]
      exact ih

theorem eraseKey_of_absent {α : Type} {l : List (String × α)} {k : String}
    (h : lookup l k = none) : eraseKey l k = l := by
  induction l with
  | nil => rfl
  | cons p rest ih =>
    rw [lookup] at h
    by_cases hk : p.1 == k
    · rw [if_pos hk] at h; exact absurd h (by simp)
    · rw [if_neg hk] at h
      rw [eraseKey, List.filter]
      simp only [hk, Bool.not_false]
      rw [← eraseKey, ih h]

theorem lookup_eraseKey_absent {α : Type} {l : List (String × α)} {k : String}
    (k' : String) (h : lookup l k = none) :
    lookup (eraseKey l k') k = none := by
  induction l with
  | nil => rfl
  | cons p rest ih =>
    rw [lookup] at h
    by_cases hk : p.1 == k
    · rw [if_pos hk] at h; exact absurd h (by simp)
    · rw [if_neg hk] at h
      rw [eraseKey, List.filter]
      by_cases hp : p.1 == k'
      · simp only [hp, Bool.not_true]
        exact ih h
      · simp only [hp, Bool.not_false]
        rw [lookup, if_neg hk]
        exact ih h

theorem lookup_filter_absent {α : Type} {l : List (String × α)} {k : String}
    {q : String × α → Bool} (h : ∀ p ∈ l, p.1 = k → q p = false) :
    lookup (l.filter q) k = none := by
  induction l with
  | nil => rfl
  | cons p rest ih =>
    rw [List.filter]
    by_cases hq : q p
    · rw [hq, lookup]
      have hk : ¬(p.1 == k) := by
        intro hbeq
        have : p.1 = k := by simpa using hbeq
        have := h p (by simp) this
        rw [this] at hq; exact Bool.noConfusion hq
      rw [if_neg hk]
      exact ih (fun x hx => h x (List.mem_cons_of_mem _ hx))
    · have : q p = false := by revert hq; cases q p <;> simp
      rw [this]
      exact ih (fun x hx => h x (List.mem_cons_of_mem _ hx))

/-! ### Cache-state lemmas -/

theorem delete_result_entries (st : CacheState) (k : String) :
    (delete_result st k).entries = eraseKey st.entries k := by
  unfold delete_result
  cases h : lookup st.entries k with
  | none => simp [eraseKey_of_absent h]
  | some e => rfl

theorem delete_result_ttl (st : CacheState) (k : String) :
    (delete_result st k).ttl = st.ttl := by
  unfold delete_result
  cases h : lookup st.entries k <;> rfl

theorem delete_result_lastCleanup (st : CacheState) (k : String) :
    (delete_result st k).lastCleanup = st.lastCleanup := by
  unfold delete_result
  cases h : lookup st.entries k <;> rfl

theorem foldl_delete_entries (ids : List String) (st : CacheState) :
    (ids.foldl delete_result st).entries =
      st.entries.filter (fun p => !(ids.contains p.1)) := by
  induction ids generalizing st with
  | nil => simp
  | cons x rest ih =>
    rw [List.foldl_cons, ih, delete_result_entries]
    unfold eraseKey
    rw [List.filter_filter]
    apply List.filter_congr
    intro p _
    simp only [List.contains_cons, Bool.not_or]
    rw [Bool.and_comm]

theorem foldl_delete_ttl (ids : List String) (st : CacheState) :
    (ids.foldl delete_result st).ttl = st.ttl := by
  induction ids generalizing st with
  | nil => rfl
  | cons x rest ih => rw [List.foldl_cons, ih, delete_result_ttl]

theorem cleanup_entries (st : CacheState) (now : Int) :
    (cleanup_expired st now).entries =
      st.entries.filter (fun p => !((expiredIds st now).contains p.1)) := by
  unfold cleanup_expired
  exact foldl_delete_entries _ _

theorem cleanup_ttl (st : CacheState) (now : Int) :
    (cleanup_expired st now).ttl = st.ttl := by
  unfold cleanup_expired
  exact foldl_delete_ttl _ _

theorem cleanup_lastCleanup (st : CacheState) (now : Int) :
    (cleanup_expired st now).lastCleanup = some now := rfl

theorem mem_expiredIds {st : CacheState} {now : Int} {k : String}
    {e : CacheEntry} (hlk : lookup st.entries k = some e)
    (hexp : isExpired now st.ttl e = true) : k ∈ expiredIds st now := by
  have hm : (k, e) ∈ st.entries := lookup_some_mem hlk
  unfold expiredIds
  exact List.mem_map.mpr ⟨(k, e), List.mem_filter.mpr ⟨hm, hexp⟩, rfl⟩

theorem lookup_cleanup_none (st : CacheState) (now : Int) {k : String}
    (h : k ∈ expiredIds st now) :
    lookup (cleanup_expired st now).entries k = none := by
  rw [cleanup_entries]
  apply lookup_filter_absent
  intro p _ hpk
  have : (expiredIds st now).contains p.1 = true := by
    rw [hpk]
    exact List.elem_eq_true_of_mem h
  simp only [this, Bool.not_true]

/-! ### Pipeline lemmas -/

theorem runTest_fail {s : Strategy} {input : List Sample}
    (h : s.validate input = false) (cctx : Option CacheCtx) :
    (runTest s cctx input).1 =
      .error (.validationError ("Input validation failed for " ++ s.testType)) := by
  unfold runTest
  rw [if_pos h]

theorem runTest_ok_fields {s : Strategy} {cctx : Option CacheCtx}
    {input : List Sample} {r : TestResult}
    (h : (runTest s cctx input).1 = .ok r) :
    s.validate input = true ∧
    r.p_value = (s.computeStatistic input).2 ∧
    r.alpha = s.alpha ∧
    r.significant = decide ((s.computeStatistic input).2 < s.alpha) ∧
    r.decision = (if decide ((s.computeStatistic input).2 < s.alpha) = true
       then "reject" else "fail_to_reject") ∧
    r.assumptions_met = s.checkAssumptions input ∧
    r.recommendation = s.genRecommendation r.decision (s.checkAssumptions input) := by
  by_cases hv : s.validate input = false
  · rw [runTest_fail hv] at h
    exact absurd h (by simp)
  · have hv' : s.validate input = true := by
      revert hv; cases s.validate input <;> simp
    unfold runTest at h
    rw [if_neg hv] at h
    dsimp only at h
    rw [Except.ok.injEq] at h
    subst h
    exact ⟨hv', rfl, rfl, rfl, rfl, rfl, rfl⟩

/-! ### Recommendation lemmas -/

theorem unmet_all_true {a : List (String × Bool)} (h : unmetOf a = []) :
    ∀ p ∈ a, p.2 = true := by
  intro p hp
  unfold unmetOf at h
  rw [List.map_eq_nil_iff] at h
  have := List.filter_eq_nil_iff.mp h p hp
  revert this; cases p.2 <;> simp

theorem lookupD_of_all_met {a : List (String × Bool)} (h : unmetOf a = [])
    (k : String) : lookupD a k true = true := by
  unfold lookupD
  cases hl : lookup a k with
  | none => rfl
  | some v => simpa using unmet_all_true h (k, v) (lookup_some_mem hl)

theorem baseRec_of_met {d : String} {a : List (String × Bool)}
    (h : unmetOf a = []) : baseRecommendation d a = baseRecommendation d [] := by
  unfold baseRecommendation
  rw [h]
  rfl

theorem baseRec_of_unmet {d : String} {a : List (String × Bool)}
    (h : ¬ unmetOf a = []) :
    baseRecommendation d a = baseBody d ++ baseWarningText (unmetOf a) := by
  have he : (unmetOf a).isEmpty = false := by
    cases hu : unmetOf a with
    | nil => exact absurd hu h
    | cons x xs => rfl
  simp only [baseRecommendation, he, Bool.false_eq_true, if_false]

theorem baseRec_exists {d : String} {a : List (String × Bool)}
    (h : ¬ unmetOf a = []) :
    ∃ pre post, baseRecommendation d a =
      pre ++ baseWarningText (unmetOf a) ++ post := by
  refine ⟨baseBody d, "", ?_⟩
  rw [baseRec_of_unmet h, String.append_empty]

theorem kruskalRec_of_met {d : String} {a : List (String × Bool)}
    (h : unmetOf a = []) :
    kruskalRecommendation d a = kruskalRecommendation d [] := by
  unfold kruskalRecommendation
  rw [baseRec_of_met h]

theorem kruskalRec_exists {d : String} {a : List (String × Bool)}
    (h : ¬ unmetOf a = []) :
    ∃ pre post, kruskalRecommendation d a =
      pre ++ baseWarningText (unmetOf a) ++ post := by
  unfold kruskalRecommendation
  rw [baseRec_of_unmet h]
  by_cases hd : (d == "reject") = true
  · exact ⟨baseBody d, kwPostHocText, by rw [if_pos hd]⟩
  · exact ⟨baseBody d, "", by rw [if_neg hd, String.append_empty]⟩

theorem anovaRec_of_met {d : String} {a : List (String × Bool)}
    (h : unmetOf a = []) :
    anovaRecommendation d a = anovaRecommendation d [] := by
  unfold anovaRecommendation
  rw [baseRec_of_met h, lookupD_of_all_met h]
  rfl

theorem anovaRec_exists {d : String} {a : List (String × Bool)}
    (h : ¬ unmetOf a = []) :
    ∃ pre post, anovaRecommendation d a =
      pre ++ baseWarningText (unmetOf a) ++ post := by
  simp only [anovaRecommendation]
  rw [baseRec_of_unmet h]
  by_cases hd : (d == "reject") = true
  · rw [if_pos hd]
    by_cases hv : lookupD a "equal_variances" true = true
    · refine ⟨baseBody d, anovaPostHocText, ?_⟩
      rw [hv]
      rfl
    · have hv' : lookupD a "equal_variances" true = false := by
        revert hv; cases lookupD a "equal_variances" true <;> simp
      refine ⟨baseBody d, anovaPostHocText ++ anovaVarWarnText, ?_⟩
      rw [hv']
      simp only [Bool.not_false, if_true]
      rw [String.append_assoc (baseBody d ++ baseWarningText (unmetOf a))]
  · rw [if_neg hd]
    by_cases hv : lookupD a "equal_variances" true = true
    · refine ⟨baseBody d, "", ?_⟩
      rw [hv]
      simp only [Bool.not_true, Bool.false_eq_true, if_false, String.append_empty]
    · have hv' : lookupD a "equal_variances" true = false := by
        revert hv; cases lookupD a "equal_variances" true <;> simp
      refine ⟨baseBody d, anovaVarWarnText, ?_⟩
      rw [hv']
      rfl

theorem bartlettRec_of_met {d : String} {a : List (String × Bool)}
    (h : unmetOf a = []) :
    bartlettRecommendation d a = baseRecommendation d [] := by
  simp only [bartlettRecommendation]
  rw [baseRec_of_met h, lookupD_of_all_met h]
  rfl

theorem bartlettRec_exists {d : String} {a : List (String × Bool)}
    (h : ¬ unmetOf a = []) :
    ∃ pre post, bartlettRecommendation d a =
      pre ++ baseWarningText (unmetOf a) ++ post := by
  simp only [bartlettRecommendation]
  rw [baseRec_of_unmet h]
  by_cases hv : lookupD a "normality" true = true
  · refine ⟨baseBody d, "", ?_⟩
    rw [hv]
    simp only [Bool.not_true, Bool.false_eq_true, if_false, String.append_empty]
  · have hv' : lookupD a "normality" true = false := by
      revert hv; cases lookupD a "normality" true <;> simp
    refine ⟨bartlettWarnText ++ baseBody d, "", ?_⟩
    rw [hv']
    simp only [Bool.not_false, if_true, String.append_empty, String.append_assoc]

theorem fTestRec_of_met {d : String} {a : List (String × Bool)}
    (h : unmetOf a = []) :
    fTestRecommendation d a = baseRecommendation d [] := by
  simp only [fTestRecommendation]
  rw [baseRec_of_met h, lookupD_of_all_met h, lookupD_of_all_met h]
  rfl

theorem fTestRec_exists {d : String} {a : List (String × Bool)}
    (h : ¬ unmetOf a = []) :
    ∃ pre post, fTestRecommendation d a =
      pre ++ baseWarningText (unmetOf a) ++ post := by
  simp only [fTestRecommendation]
  rw [baseRec_of_unmet h]
  by_cases hc : (!(lookupD a "group1_normality" true) ||
      !(lookupD a "group2_normality" true)) = true
  · refine ⟨fTestWarnText ++ baseBody d, "", ?_⟩
    rw [if_pos hc]
    simp only [String.append_empty, String.append_assoc]
  · refine ⟨baseBody d, "", ?_⟩
    rw [if_neg hc, String.append_empty]

/-- After a passing validation, every Shapiro-Wilk assumption check holds:
`validate_input` already enforces exactly the checked conditions. -/
theorem shapiro_assumptions_met (lib : StatLib) (alpha : ℚ)
    {input : List Sample}
    (hv : (shapiroWilkTest lib alpha).validate input = true) :
    unmetOf ((shapiroWilkTest lib alpha).checkAssumptions input) = [] := by
  match input with
  | [] => simp [shapiroWilkTest] at hv
  | [data] =>
    simp only [shapiroWilkTest, Bool.and_eq_true, decide_eq_true_eq] at hv
    obtain ⟨⟨h3, h5000⟩, hnan⟩ := hv
    simp [shapiroWilkTest, unmetOf, h3, h5000, hnan]
  | _ :: _ :: _ :: _ => simp [shapiroWilkTest] at hv
  | [_, _] => simp [shapiroWilkTest] at hv

/-- After a passing validation, every Levene assumption check holds. -/
theorem levene_assumptions_met (lib : StatLib) (alpha : ℚ) (center : String)
    {input : List Sample}
    (hv : (leveneTest lib alpha center).validate input = true) :
    unmetOf ((leveneTest lib alpha center).checkAssumptions input) = [] := by
  simp only [leveneTest, Bool.and_eq_true, decide_eq_true_eq,
    List.all_eq_true] at hv
  obtain ⟨h2, hall⟩ := hv
  have hall2 : ∀ g ∈ input, 2 ≤ g.length := by
    intro g hg
    have := hall g hg
    simp only [Bool.and_eq_true, decide_eq_true_eq] at this
    exact this.1
  have hA : decide (input.length ≥ 2) = true := decide_eq_true h2
  have hB : input.all (fun g => decide (g.length ≥ 2)) = true := by
    rw [List.all_eq_true]
    intro g hg
    exact decide_eq_true (hall2 g hg)
  simp only [leveneTest, unmetOf, hA, hB]
  rfl

/-! ### Claim theorems -/

/-- C1: For every Test Strategy and every input that passes validation, the
TestResult produced by a pipeline run satisfies `significant = (p_value < alpha)`
with strict less-than, and `decision = "reject"` if and only if `significant`
(otherwise `decision = "fail_to_reject"`). -/
theorem claim_C1_significance_invariant (s : Strategy) (cctx : Option CacheCtx)
    (input : List Sample) (r : TestResult)
    (h : (runTest s cctx input).1 = .ok r) :
    (r.significant = true ↔ r.p_value < r.alpha) ∧
    (r.decision = "reject" ↔ r.significant = true) ∧
    (r.significant = false → r.decision = "fail_to_reject") := by
  obtain ⟨-, hp, ha, hsig, hdec, -, -⟩ := runTest_ok_fields h
  rw [hp, ha, hsig, hdec]
  by_cases hx : (s.computeStatistic input).2 < s.alpha
  · simp [hx]
  · simp [hx]

/-- Witness for C1: a concrete one-sample run of the pipeline. -/
theorem claim_C1_witness :
    (runTest stratC1 none [sampleA]).1 = .ok resC1 ∧
    ((resC1.significant = true ↔ resC1.p_value < resC1.alpha) ∧
     (resC1.decision = "reject" ↔ resC1.significant = true) ∧
     (resC1.significant = false → resC1.decision = "fail_to_reject")) :=
  ⟨rfl, claim_C1_significance_invariant stratC1 none [sampleA] resC1 rfl⟩

/-- C2: For the paired t-test and Wilcoxon signed-rank strategies, every
pair of input arrays of unequal length fails validation, and a pipeline run
on those inputs halts with a ValidationError naming the variant, producing
no TestResult. -/
theorem claim_C2_paired_unequal_length (lib : StatLib) (alpha : ℚ)
    (alternative : String) (cctx cctx' : Option CacheCtx)
    {before after : Sample} (h : before.length ≠ after.length) :
    (pairedTTest lib alpha alternative).validate [before, after] = false ∧
    (runTest (pairedTTest lib alpha alternative) cctx [before, after]).1 =
      .error (.validationError "Input validation failed for paired_t_test") ∧
    (wilcoxonSignedRankTest lib alpha alternative).validate [before, after] = false ∧
    (runTest (wilcoxonSignedRankTest lib alpha alternative) cctx'
        [before, after]).1 =
      .error (.validationError "Input validation failed for wilcoxon_signed_rank") := by
  have hp : (pairedTTest lib alpha alternative).validate [before, after] = false := by
    simp [pairedTTest, h]
  have hw : (wilcoxonSignedRankTest lib alpha alternative).validate
      [before, after] = false := by
    simp [wilcoxonSignedRankTest, h]
  refine ⟨hp, ?_, hw, ?_⟩
  · rw [runTest_fail hp]; rfl
  · rw [runTest_fail hw]; rfl

/-- Witness for C2: length-2 and length-3 paired arrays. -/
theorem claim_C2_witness :
    beforeC2.length ≠ afterC2.length ∧
    ((pairedTTest trivLib (1/20) "two-sided").validate [beforeC2, afterC2] = false ∧
     (runTest (pairedTTest trivLib (1/20) "two-sided") none [beforeC2, afterC2]).1 =
       .error (.validationError "Input validation failed for paired_t_test") ∧
     (wilcoxonSignedRankTest trivLib (1/20) "two-sided").validate
       [beforeC2, afterC2] = false ∧
     (runTest (wilcoxonSignedRankTest trivLib (1/20) "two-sided") none
         [beforeC2, afterC2]).1 =
       .error (.validationError "Input validation failed for wilcoxon_signed_rank")) :=
  ⟨by decide,
   claim_C2_paired_unequal_length trivLib (1/20) "two-sided" none none (by decide)⟩

/-- C9: Cache read operations are side-effect free: `get_result` and
`list_cached_tests` leave the cache state (index entries, their fields, and
backing files) unchanged, including on lookup misses and missing backing
files. -/
theorem claim_C9_reads_are_pure (st : CacheState) (testId : String) (b : Bool) :
    (get_result st testId b).2 = st ∧ (list_cached_tests st).2 = st := by
  constructor
  · unfold get_result
    repeat' split
    all_goals rfl
  · rfl

/-- Helper for the C10 witness: a constant replicated sample is NaN-free. -/
theorem hasNaN_replicate_false (n : ℕ) (q : ℚ) :
    hasNaN (List.replicate n ⟨q, false⟩) = false := by
  induction n with
  | zero => rfl
  | succ m ih =>
    rw [List.replicate_succ]
    unfold hasNaN at ih ⊢
    rw [List.any_cons, ih]
    rfl

/-- C10: The Shapiro-Wilk strategy's validation enforces an upper size limit
in addition to the documented minimum: every NaN-free sample with more than
5000 observations fails validation, so a pipeline run halts with a
ValidationError. -/
theorem claim_C10_shapiro_upper_bound (lib : StatLib) (alpha : ℚ)
    (cctx : Option CacheCtx) {data : Sample}
    (hlen : data.length > 5000) (_hnan : hasNaN data = false) :
    (shapiroWilkTest lib alpha).validate [data] = false ∧
    (runTest (shapiroWilkTest lib alpha) cctx [data]).1 =
      .error (.validationError "Input validation failed for shapiro_wilk") := by
  have hle : ¬(data.length ≤ 5000) := by omega
  have hv : (shapiroWilkTest lib alpha).validate [data] = false := by
    simp [shapiroWilkTest, hle]
  exact ⟨hv, by rw [runTest_fail hv]; rfl⟩

/-- Witness for C10: a NaN-free sample of 5001 observations. -/
theorem claim_C10_witness :
    bigSample.length > 5000 ∧ hasNaN bigSample = false ∧
    ((shapiroWilkTest trivLib (1/20)).validate [bigSample] = false ∧
     (runTest (shapiroWilkTest trivLib (1/20)) none [bigSample]).1 =
       .error (.validationError "Input validation failed for shapiro_wilk")) :=
  have hlen : bigSample.length > 5000 := by
    unfold bigSample
    rw [List.length_replicate]
    omega
  have hnan : hasNaN bigSample = false := hasNaN_replicate_false 5001 0
  ⟨hlen, hnan, claim_C10_shapiro_upper_bound trivLib (1/20) none hlen hnan⟩

/-- Helper for C3: the two backing-file paths of one identifier differ. -/
theorem resultPath_ne_dataPath (i : String) : resultPath i ≠ dataPath i := by
  intro h
  have hlen := congrArg String.length h
  rw [resultPath, dataPath, String.length_append, String.length_append,
      String.length_append, String.length_append] at hlen
  have h1 : ("test_results/" : String).length = 13 := rfl
  have h2 : (".json" : String).length = 5 := rfl
  have h3 : ("_data.json" : String).length = 10 := rfl
  rw [h1, h2, h3] at hlen
  omega

/-- Helper: a `get_result` call without raw data returns the payload stored
behind a live index entry. -/
theorem get_result_noRaw {st : CacheState} {k : String} {e : CacheEntry}
    {j : Json} (h1 : lookup st.entries k = some e)
    (h2 : lookup st.files e.result_file = some j) :
    (get_result st k false).1 = some j := by
  unfold get_result
  rw [h1]
  dsimp only
  rw [h2]
  dsimp only
  cases hd : e.data_file with
  | none => rfl
  | some dp => simp

/-- Helper: a `get_result` call on an identifier absent from the index
returns not-found. -/
theorem get_result_miss {st : CacheState} {k : String} (b : Bool)
    (h1 : lookup st.entries k = none) : (get_result st k b).1 = none := by
  unfold get_result
  rw [h1]

/-- C3: For every payload written via `cache_result` (with the write
succeeding), `get_result` on the returned identifier returns the very
payload before expiry; after `delete_result` on that identifier, or after an
expiry sweep that removes it, `get_result` returns not-found. -/
theorem claim_C3_cache_round_trip (st : CacheState) (now : Int)
    (freshId testType : String) (payload : Json) (rawData : Option Json)
    (b : Bool) (t : Int) (retId : String) (st' : CacheState)
    (hcache : cache_result st false now freshId testType payload rawData =
      (retId, st'))
    (hexp : t - now > st.ttl) :
    (get_result st' retId false).1 = some payload ∧
    (get_result (delete_result st' retId) retId b).1 = none ∧
    (get_result (cleanup_expired st' t) retId b).1 = none := by
  have step : lookup st'.entries retId = some
        { test_type := testType, created := some now,
          has_raw_data := rawData.isSome,
          result_file := resultPath retId,
          data_file := if (match rawData with
            | some rd => rd.truthy
            | none => false) = true then some (dataPath retId) else none } ∧
      lookup st'.files (resultPath retId) = some payload ∧
      st'.ttl = st.ttl := by
    unfold cache_result at hcache
    simp only [Bool.false_eq_true, if_false, Prod.mk.injEq] at hcache
    obtain ⟨hid, hst⟩ := hcache
    subst hid
    subst hst
    rcases rawData with _ | rd
    · exact ⟨lookup_insertKey_self _ _ _, lookup_insertKey_self _ _ _, rfl⟩
    · by_cases htr : rd.truthy = true
      · simp only [htr, if_true]
        refine ⟨lookup_insertKey_self _ _ _, ?_, ?_⟩
        · rw [lookup_insertKey_ne _ _ (resultPath_ne_dataPath _)]
          exact lookup_insertKey_self _ _ _
        · trivial
      · have htr' : rd.truthy = false := by
          revert htr; cases rd.truthy <;> simp
        simp only [htr', Bool.false_eq_true, if_false]
        refine ⟨lookup_insertKey_self _ _ _, lookup_insertKey_self _ _ _, ?_⟩
        trivial
  obtain ⟨hlk, hfile, httl⟩ := step
  refine ⟨get_result_noRaw hlk hfile, ?_, ?_⟩
  · apply get_result_miss
    rw [delete_result_entries]
    exact lookup_eraseKey_self _ _
  · apply get_result_miss
    apply lookup_cleanup_none
    apply mem_expiredIds hlk
    unfold isExpired
    rw [httl]
    exact decide_eq_true hexp

/-- Witness for C3: a concrete write into an empty cache, read back, deleted,
and expired at a later time. -/
theorem claim_C3_witness :
    cache_result emptyCache false 0 idW "one_sample_t_test" payloadW none =
      (cacheOutC3.1, cacheOutC3.2) ∧
    (100 : Int) - 0 > emptyCache.ttl ∧
    ((get_result cacheOutC3.2 cacheOutC3.1 false).1 = some payloadW ∧
     (get_result (delete_result cacheOutC3.2 cacheOutC3.1) cacheOutC3.1 false).1 = none ∧
     (get_result (cleanup_expired cacheOutC3.2 100) cacheOutC3.1 false).1 = none) :=
  ⟨rfl, by decide,
   claim_C3_cache_round_trip emptyCache 0 idW "one_sample_t_test" payloadW none
     false 100 cacheOutC3.1 cacheOutC3.2 rfl (by decide)⟩

/-- Helper for C5: an expiry sweep that finds nothing expired and whose
`last_cleanup` stamp is already current is the identity. -/
theorem cleanup_of_no_expired {X : CacheState} {now : Int}
    (h : expiredIds X now = []) (hl : X.lastCleanup = some now) :
    cleanup_expired X now = X := by
  unfold cleanup_expired
  rw [h]
  rw [← hl]
  rfl

/-- C5: The expiry sweep is idempotent: at a fixed current time, a second
sweep collects no expired identifier, and the cache state after the second
sweep equals the state after the first. -/
theorem claim_C5_expiry_sweep_idempotent (st : CacheState) (now : Int) :
    expiredIds (cleanup_expired st now) now = [] ∧
    cleanup_expired (cleanup_expired st now) now = cleanup_expired st now := by
  have hids : expiredIds (cleanup_expired st now) now = [] := by
    unfold expiredIds
    rw [cleanup_ttl, cleanup_entries, List.filter_filter, List.map_eq_nil_iff,
        List.filter_eq_nil_iff]
    intro p hp hcontra
    rw [Bool.and_eq_true] at hcontra
    obtain ⟨h1, h2⟩ := hcontra
    have hm : p.1 ∈ expiredIds st now := by
      unfold expiredIds
      exact List.mem_map.mpr ⟨p, List.mem_filter.mpr ⟨hp, h1⟩, rfl⟩
    have hc : (expiredIds st now).contains p.1 = true :=
      List.elem_eq_true_of_mem hm
    rw [hc] at h2
    exact Bool.noConfusion h2
  exact ⟨hids, cleanup_of_no_expired hids rfl⟩

/-- C6: During an expiry sweep, every index entry whose creation timestamp
is missing or cannot be parsed is treated as expired and removed, regardless
of the configured time-to-live. -/
theorem claim_C6_missing_timestamp_expired (st : CacheState) (now : Int)
    (testId : String) (e : CacheEntry)
    (hlk : lookup st.entries testId = some e) (hc : e.created = none) :
    isExpired now st.ttl e = true ∧
    lookup (cleanup_expired st now).entries testId = none := by
  have hexp : isExpired now st.ttl e = true := by
    unfold isExpired
    rw [hc]
  exact ⟨hexp, lookup_cleanup_none st now (mem_expiredIds hlk hexp)⟩

/-- Witness for C6: a one-entry cache whose entry has no parsable creation
timestamp, swept at time 0. -/
theorem claim_C6_witness :
    lookup corruptCache.entries idW = some corruptEntry ∧
    corruptEntry.created = none ∧
    (isExpired 0 corruptCache.ttl corruptEntry = true ∧
     lookup (cleanup_expired corruptCache 0).entries idW = none) :=
  ⟨rfl, rfl,
   claim_C6_missing_timestamp_expired corruptCache 0 idW corruptEntry rfl rfl⟩

/-- C7: When writing the cache files fails with an I/O error, `cache_result`
does not raise: it returns the sentinel identifier `cache_error_{id}`, which
no sixteen-character normal identifier can equal, and a pipeline run using
that cache still returns its in-memory result with the sentinel attached. -/
theorem claim_C7_cache_write_failure (st : CacheState) (now : Int)
    (freshId testType : String) (payload : Json) (rawData : Option Json)
    (s : Strategy) (input : List Sample)
    (hval : s.validate input = true) (hlen : freshId.length = 16) :
    (cache_result st true now freshId testType payload rawData).1 =
      "cache_error_" ++ freshId ∧
    (∀ normalId : String, normalId.length = 16 →
      (cache_result st true now freshId testType payload rawData).1 ≠ normalId) ∧
    ∃ r : TestResult,
      (runTest s (some ⟨st, true, now, freshId⟩) input).1 = .ok r ∧
      r.cache_id = some ("cache_error_" ++ freshId) := by
  refine ⟨rfl, ?_, ?_⟩
  · intro normalId hn heq
    have heq' : "cache_error_" ++ freshId = normalId := heq
    have hl := congrArg String.length heq'
    rw [String.length_append, hn, hlen] at hl
    have h12 : ("cache_error_" : String).length = 12 := rfl
    rw [h12] at hl
    omega
  · have hvf : ¬ (s.validate input = false) := by
      rw [hval]; exact fun hcon => Bool.noConfusion hcon
    unfold runTest
    rw [if_neg hvf]
    exact ⟨_, rfl, rfl⟩

/-- Witness for C7: a failing write into the empty cache during a concrete
one-sample pipeline run. -/
theorem claim_C7_witness :
    stratC1.validate [sampleA] = true ∧ idW.length = 16 ∧
    ((cache_result emptyCache true 0 idW "one_sample_t_test" payloadW none).1 =
       "cache_error_" ++ idW ∧
     (∀ normalId : String, normalId.length = 16 →
       (cache_result emptyCache true 0 idW "one_sample_t_test" payloadW none).1 ≠
         normalId) ∧
     ∃ r : TestResult,
       (runTest stratC1 (some ⟨emptyCache, true, 0, idW⟩) [sampleA]).1 = .ok r ∧
       r.cache_id = some ("cache_error_" ++ idW)) :=
  ⟨rfl, rfl,
   claim_C7_cache_write_failure emptyCache 0 idW "one_sample_t_test" payloadW
     none stratC1 [sampleA] rfl rfl⟩

/-- C8: For every single-group input the Suggestion Engine follows the
one-sample branch of the decision table: a continuous scale with normality
or adequate size yields the one-sample t-test; a continuous scale without
normality and with inadequate size yields the Wilcoxon signed-rank test; a
non-continuous scale yields the sign test. -/
theorem claim_C8_one_sample_branch (lib : StatLib) (data : Sample)
    (mu0 : Option ℚ) (chars : DataCharacteristics) (sug : Suggestion)
    (hc : analyze_data lib [data] = some chars)
    (hs : suggest_test lib [data] mu0 = some sug) :
    (chars.data_type = "continuous" →
      (chars.is_normal = true ∨ chars.sample_size_adequate = true) →
      sug.primary_test = "one_sample_t_test") ∧
    (chars.data_type = "continuous" → chars.is_normal = false →
      chars.sample_size_adequate = false →
      sug.primary_test = "wilcoxon_signed_rank") ∧
    (chars.data_type ≠ "continuous" → sug.primary_test = "sign_test") := by
  have hng : chars.n_groups = 1 := by
    unfold analyze_data at hc
    dsimp only at hc
    rw [Option.some.injEq] at hc
    rw [← hc]
    rfl
  unfold suggest_test at hs
  rw [hc] at hs
  simp only [Option.map_some'] at hs
  rw [Option.some.injEq] at hs
  have h1 : (chars.n_groups == 1) = true := by rw [hng]; rfl
  rw [if_pos h1] at hs
  subst hs
  refine ⟨?_, ?_, ?_⟩
  · intro hcont hor
    rcases hor with hn | ha
    · simp [suggestOneSample, hcont, hn]
    · simp [suggestOneSample, hcont, ha]
  · intro hcont hn ha
    simp [suggestOneSample, hcont, hn, ha]
  · intro hncont
    simp [suggestOneSample, hncont]

/-- Witness for C8: a 31-point single group with distinct values (continuous,
adequately sized) is steered to the one-sample t-test branch. -/
theorem claim_C8_witness :
    analyze_data trivLib [sampleC8] = some charsC8 ∧
    suggest_test trivLib [sampleC8] none = some sugC8 ∧
    ((charsC8.data_type = "continuous" →
      (charsC8.is_normal = true ∨ charsC8.sample_size_adequate = true) →
      sugC8.primary_test = "one_sample_t_test") ∧
     (charsC8.data_type = "continuous" → charsC8.is_normal = false →
      charsC8.sample_size_adequate = false →
      sugC8.primary_test = "wilcoxon_signed_rank") ∧
     (charsC8.data_type ≠ "continuous" → sugC8.primary_test = "sign_test")) :=
  ⟨rfl, rfl,
   claim_C8_one_sample_branch trivLib sampleC8 none charsC8 sugC8 rfl rfl⟩

/-- C4: For every Test Strategy, whenever at least one assumption check
returns false, the recommendation attached to the TestResult contains the
fixed warning naming the unmet assumptions and suggesting a non-parametric
alternative; when all assumptions hold, the recommendation is the
strategy's neutral remark, a function of the decision alone. -/
theorem claim_C4_recommendation_shape (lib : StatLib) (alpha mu0 : ℚ)
    (alternative : String) (equalVar : Bool) (center distribution : String)
    (s : Strategy)
    (hs : s ∈ allStrategies lib alpha mu0 alternative equalVar center distribution)
    (cctx : Option CacheCtx) (input : List Sample) (r : TestResult)
    (h : (runTest s cctx input).1 = .ok r) :
    (unmetOf r.assumptions_met ≠ [] →
      ∃ pre post, r.recommendation =
        pre ++ baseWarningText (unmetOf r.assumptions_met) ++ post) ∧
    (unmetOf r.assumptions_met = [] →
      r.recommendation = neutralRecommendation s.testType r.decision) := by
  obtain ⟨hval, -, -, -, -, hassum, hrec⟩ := runTest_ok_fields h
  rw [hassum, hrec]
  simp only [allStrategies, List.mem_cons, List.not_mem_nil, or_false] at hs
  rcases hs with rfl | rfl | rfl | rfl | rfl | rfl | rfl | rfl | rfl | rfl | rfl | rfl | rfl | rfl
  · exact ⟨fun hne => baseRec_exists hne, fun hmet => baseRec_of_met hmet⟩
  · exact ⟨fun hne => baseRec_exists hne, fun hmet => baseRec_of_met hmet⟩
  · exact ⟨fun hne => baseRec_exists hne, fun hmet => baseRec_of_met hmet⟩
  · exact ⟨fun hne => anovaRec_exists hne, fun hmet => anovaRec_of_met hmet⟩
  · exact ⟨fun hne => baseRec_exists hne, fun hmet => baseRec_of_met hmet⟩
  · exact ⟨fun hne => baseRec_exists hne, fun hmet => baseRec_of_met hmet⟩
  · exact ⟨fun hne => kruskalRec_exists hne, fun hmet => kruskalRec_of_met hmet⟩
  · exact ⟨fun hne => absurd (shapiro_assumptions_met lib alpha hval) hne,
      fun _ => rfl⟩
  · exact ⟨fun hne => baseRec_exists hne, fun hmet => baseRec_of_met hmet⟩
  · exact ⟨fun hne => baseRec_exists hne, fun hmet => baseRec_of_met hmet⟩
  · exact ⟨fun hne => baseRec_exists hne, fun hmet => baseRec_of_met hmet⟩
  · exact ⟨fun hne => absurd (levene_assumptions_met lib alpha center hval) hne,
      fun _ => rfl⟩
  · exact ⟨fun hne => bartlettRec_exists hne, fun hmet => bartlettRec_of_met hmet⟩
  · exact ⟨fun hne => fTestRec_exists hne, fun hmet => fTestRec_of_met hmet⟩

/-- Witness for C4: the Shapiro-Wilk strategy run on a valid sample, whose
assumption checks all pass. -/
theorem claim_C4_witness :
    stratSW ∈ allStrategies trivLib (1/20) 0 "two-sided" true "median" "norm" ∧
    (runTest stratSW none [sampleA]).1 = .ok resC4 ∧
    ((unmetOf resC4.assumptions_met ≠ [] →
      ∃ pre post, resC4.recommendation =
        pre ++ baseWarningText (unmetOf resC4.assumptions_met) ++ post) ∧
     (unmetOf resC4.assumptions_met = [] →
      resC4.recommendation = neutralRecommendation stratSW.testType resC4.decision)) :=
  have hmem : stratSW ∈ allStrategies trivLib (1/20) 0 "two-sided" true "median" "norm" := by
    unfold allStrategies stratSW
    exact List.mem_cons_of_mem _ (List.mem_cons_of_mem _ (List.mem_cons_of_mem _
      (List.mem_cons_of_mem _ (List.mem_cons_of_mem _ (List.mem_cons_of_mem _
      (List.mem_cons_of_mem _ (List.mem_cons_self _ _)))))))
  ⟨hmem, rfl,
   claim_C4_recommendation_shape trivLib (1/20) 0 "two-sided" true "median"
     "norm" stratSW hmem none [sampleA] resC4 rfl⟩

end HypTester
